import Mathlib

/-!
Shallow embedding of the lifx repository (a LIFX LAN protocol client library
written in Rust) and proofs about its wire codec and device manager.

Conventions of the embedding:
* Machine integers (u8/u16/u32/u64) are modelled as `Nat`; where the Rust code
  relies on the typing invariant (a `u16` value is below 2^16) the Lean
  statements carry the corresponding bound as a hypothesis or a
  well-formedness predicate.
* `i16` and `f32` payload fields are carried by the codec opaquely (the code
  only moves their little-endian bytes); they are modelled by their 16-bit /
  32-bit bit patterns as `Nat`.
* Byte buffers are `List Nat`, one entry per byte.
* Fallible Rust functions returning `Result` are modelled with `ERes`;
  functions that can also panic (slice indexing out of range, `assert!`) are
  modelled with `PRes`, whose third constructor records a panic.
-/

namespace Lifx

/-- A byte buffer: one `Nat` per byte. -/
abbrev Bytes := List Nat

/-! ## Little-endian scalar encoders (read_write.rs, `LittleEndianWriter`) -/

/-- Write a `u8` (one byte). -/
def u8LE (n : Nat) : Bytes := [n % 256]

/-- Write a `u16` in little-endian order. -/
def u16LE (n : Nat) : Bytes := [n % 256, n / 256 % 256]

/-- Write a `u32` in little-endian order. -/
def u32LE (n : Nat) : Bytes :=
  [n % 256, n / 256 % 256, n / 65536 % 256, n / 16777216 % 256]

/-- Write a `u64` in little-endian order. -/
def u64LE (n : Nat) : Bytes :=
  [n % 256, n / 256 % 256, n / 65536 % 256, n / 16777216 % 256,
   n / 4294967296 % 256, n / 1099511627776 % 256,
   n / 281474976710656 % 256, n / 72057594037927936 % 256]

/-- Write a `bool` as one byte (1 / 0), as in read_write.rs. -/
def boolLE (b : Bool) : Bytes := [if b then 1 else 0]

/-! ## Little-endian scalar readers (read_write.rs, `LittleEndianReader`).

Each reader consumes its bytes from the front of the buffer and returns the
value together with the unconsumed tail; `none` models the `io::Error`
(unexpected EOF) that `byteorder` returns when the cursor runs dry. -/

def readU8 : Bytes → Option (Nat × Bytes)
  | [] => none
  | b :: r => some (b, r)

def readU16 : Bytes → Option (Nat × Bytes)
  | b0 :: b1 :: r => some (b0 + 256 * b1, r)
  | _ => none

def readU32 : Bytes → Option (Nat × Bytes)
  | b0 :: b1 :: b2 :: b3 :: r =>
    some (b0 + 256 * b1 + 65536 * b2 + 16777216 * b3, r)
  | _ => none

def readU64 : Bytes → Option (Nat × Bytes)
  | b0 :: b1 :: b2 :: b3 :: b4 :: b5 :: b6 :: b7 :: r =>
    some (b0 + 256 * b1 + 65536 * b2 + 16777216 * b3 + 4294967296 * b4
      + 1099511627776 * b5 + 281474976710656 * b6
      + 72057594037927936 * b7, r)
  | _ => none

/-- Read `n` raw bytes (a loop of `read_u8` calls in the source). -/
def readBytes (n : Nat) (v : Bytes) : Option (Bytes × Bytes) :=
  if v.length < n then none else some (v.take n, v.drop n)

/-! ## Round-trip lemmas for the scalar codecs -/

theorem readU8_u8LE (n : Nat) (r : Bytes) (h : n < 256) :
    readU8 (u8LE n ++ r) = some (n, r) := by
  simp [u8LE, readU8, Nat.mod_eq_of_lt h]

theorem readU16_u16LE (n : Nat) (r : Bytes) (h : n < 65536) :
    readU16 (u16LE n ++ r) = some (n, r) := by
  simp only [u16LE, List.cons_append, List.nil_append, readU16]
  have hv : n % 256 + 256 * (n / 256 % 256) = n := by omega
  rw [hv]

theorem readU32_u32LE (n : Nat) (r : Bytes) (h : n < 4294967296) :
    readU32 (u32LE n ++ r) = some (n, r) := by
  simp only [u32LE, List.cons_append, List.nil_append, readU32]
  have hv : n % 256 + 256 * (n / 256 % 256) + 65536 * (n / 65536 % 256)
      + 16777216 * (n / 16777216 % 256) = n := by omega
  rw [hv]

theorem readU64_u64LE (n : Nat) (r : Bytes) (h : n < 18446744073709551616) :
    readU64 (u64LE n ++ r) = some (n, r) := by
  simp only [u64LE, List.cons_append, List.nil_append, readU64]
  have hv : n % 256 + 256 * (n / 256 % 256) + 65536 * (n / 65536 % 256)
      + 16777216 * (n / 16777216 % 256) + 4294967296 * (n / 4294967296 % 256)
      + 1099511627776 * (n / 1099511627776 % 256)
      + 281474976710656 * (n / 281474976710656 % 256)
      + 72057594037927936 * (n / 72057594037927936 % 256) = n := by omega
  rw [hv]

theorem readBytes_exact (l r : Bytes) (n : Nat) (h : l.length = n) :
    readBytes n (l ++ r) = some (l, r) := by
  subst h
  simp [readBytes, List.take_append, List.drop_append]

/-! ## Errors (error.rs).

`Error::Io` carries an `io::Error` cause in the source; only its presence
matters to the library, so it is modelled as a bare constructor. -/

inductive Err where
  | UnknownMessageType (typ : Nat)
  | ProtocolError (detail : String)
  | IoError
  deriving DecidableEq, Repr

/-- Result of a fallible Rust function (`Result<α, Error>`). -/
inductive ERes (α : Type) where
  | ok (a : α)
  | err (e : Err)
  deriving DecidableEq, Repr

/-- Result of a Rust computation that may also panic (failed `assert!`,
out-of-range slice index).  `panicked` records abnormal termination. -/
inductive PRes (α : Type) where
  | ok (a : α)
  | err (e : Err)
  | panicked
  deriving DecidableEq, Repr

/-- Does an `ERes` hold a `ProtocolError`? -/
def ERes.isProtocolError : ERes α → Bool
  | .err (.ProtocolError _) => true
  | _ => false

/-! ## Primitive payload types (string.rs, misc.rs, color.rs) -/

/-- string.rs `LifxString`: the wrapped Rust `String`, modelled as the list of
its characters' byte values (the codec is exercised on ASCII labels, where
`chars()` and byte indexing coincide). -/
structure LifxString where
  chars : List Nat
  deriving DecidableEq, Repr

/-- string.rs writer: 32 bytes; byte `idx` is character `idx` of the string,
or NUL once past its end (strings longer than 32 are cut at 32).  The
source bounds this loop by the String's byte length while indexing by char
position and unwrapping (`v.0.chars().nth(idx).unwrap()`), so for a label
shorter than 32 chars containing a non-ASCII (multi-byte) char the `unwrap`
panics.  The embedding therefore restricts every label theorem to the ASCII
domain (`LifxString.wf`), where char index and byte index coincide and the
source loop is total and equal to this definition. -/
def LifxString.pack (s : LifxString) : Bytes :=
  s.chars.take 32 ++ List.replicate (32 - s.chars.length) 0

/-- string.rs reader: read 32 bytes, keeping only the non-NUL ones. -/
def readLifxString (v : Bytes) : Option (LifxString × Bytes) :=
  match readBytes 32 v with
  | none => none
  | some (l, r) => some (⟨l.filter (0 < ·)⟩, r)

/-- A label is well formed when it is at most 32 bytes of non-NUL ASCII
(`c < 128`).  On this domain the source writer is total — no char/byte
length mismatch, hence no `unwrap` panic — and it round-trips exactly: the
NUL padding added by the writer is stripped by the reader. -/
def LifxString.wf (s : LifxString) : Prop :=
  s.chars.length ≤ 32 ∧ ∀ c ∈ s.chars, 0 < c ∧ c < 128

instance (s : LifxString) : Decidable s.wf := by
  unfold LifxString.wf; infer_instance

theorem LifxString.pack_length32 (s : LifxString) : s.pack.length = 32 := by
  simp [LifxString.pack]
  omega

theorem readLifxString_pack (s : LifxString) (r : Bytes) (h : s.wf) :
    readLifxString (s.pack ++ r) = some (s, r) := by
  obtain ⟨hlen, hpos⟩ := h
  unfold readLifxString
  rw [readBytes_exact s.pack r 32 s.pack_length32]
  have h1 : s.pack.filter (0 < ·) = s.chars := by
    unfold LifxString.pack
    rw [List.filter_append]
    have h2 : List.filter (fun c => decide (0 < c)) (List.replicate (32 - s.chars.length) 0)
        = [] := by
      simp [List.filter_replicate]
    rw [List.take_of_length_le hlen, h2, List.append_nil]
    exact List.filter_eq_self.2 fun c hc => by simpa using (hpos c hc).1
  simp [h1]

/-- misc.rs `LifxIdent`: an opaque `[u8; 16]`, modelled as a 16-byte list. -/
structure LifxIdent where
  bytes : Bytes
  deriving DecidableEq, Repr

def LifxIdent.wf (i : LifxIdent) : Prop :=
  i.bytes.length = 16 ∧ ∀ c ∈ i.bytes, c < 256

instance (i : LifxIdent) : Decidable i.wf := by
  unfold LifxIdent.wf; infer_instance

/-- misc.rs writer: the 16 raw bytes. -/
def LifxIdent.pack (i : LifxIdent) : Bytes := i.bytes.take 16

/-- misc.rs reader: 16 `read_u8` calls. -/
def readLifxIdent (v : Bytes) : Option (LifxIdent × Bytes) :=
  match readBytes 16 v with
  | none => none
  | some (l, r) => some (⟨l⟩, r)

theorem readLifxIdent_pack (i : LifxIdent) (r : Bytes) (h : i.bytes.length = 16) :
    readLifxIdent (i.pack ++ r) = some (i, r) := by
  unfold readLifxIdent LifxIdent.pack
  rw [List.take_of_length_le (by omega)]
  rw [readBytes_exact i.bytes r 16 h]

/-- misc.rs `EchoPayload`: an opaque `[u8; 64]`, modelled as a 64-byte list. -/
structure EchoPayload where
  bytes : Bytes
  deriving DecidableEq, Repr

def EchoPayload.wf (p : EchoPayload) : Prop :=
  p.bytes.length = 64 ∧ ∀ c ∈ p.bytes, c < 256

instance (p : EchoPayload) : Decidable p.wf := by
  unfold EchoPayload.wf; infer_instance

def EchoPayload.pack (p : EchoPayload) : Bytes := p.bytes.take 64

def readEchoPayload (v : Bytes) : Option (EchoPayload × Bytes) :=
  match readBytes 64 v with
  | none => none
  | some (l, r) => some (⟨l⟩, r)

theorem readEchoPayload_pack (p : EchoPayload) (r : Bytes) (h : p.bytes.length = 64) :
    readEchoPayload (p.pack ++ r) = some (p, r) := by
  unfold readEchoPayload EchoPayload.pack
  rw [List.take_of_length_le (by omega)]
  rw [readBytes_exact p.bytes r 64 h]

/-- misc.rs `PowerLevel`: a `u16` restricted to 0 (Standby) / 65535 (Enabled). -/
inductive PowerLevel where
  | Standby
  | Enabled
  deriving DecidableEq, Repr

/-- `PowerLevel as u16`. -/
def PowerLevel.toU16 : PowerLevel → Nat
  | .Standby => 0
  | .Enabled => 65535

/-- misc.rs `TryFrom<u16> for PowerLevel`. -/
def PowerLevel.tryFrom (val : Nat) : ERes PowerLevel :=
  if val = 65535 then .ok .Enabled
  else if val = 0 then .ok .Standby
  else .err (.ProtocolError ("Unknown power level " ++ toString val))

theorem PowerLevel.tryFrom_toU16 (p : PowerLevel) : PowerLevel.tryFrom p.toU16 = .ok p := by
  cases p <;> rfl

/-- misc.rs `Service`: the only documented service is UDP = 1. -/
inductive Service where
  | UDP
  deriving DecidableEq, Repr

def Service.toU8 : Service → Nat
  | .UDP => 1

/-- misc.rs `TryFrom<u8> for Service`. -/
def Service.tryFrom (val : Nat) : ERes Service :=
  if val ≠ 1 then .err (.ProtocolError ("Unknown service value " ++ toString val))
  else .ok .UDP

/-- color.rs `ApplicationRequest`. -/
inductive ApplicationRequest where
  | NoApply
  | Apply
  | ApplyOnly
  deriving DecidableEq, Repr

def ApplicationRequest.toU8 : ApplicationRequest → Nat
  | .NoApply => 0
  | .Apply => 1
  | .ApplyOnly => 2

/-- color.rs `TryFrom<u8> for ApplicationRequest`. -/
def ApplicationRequest.tryFrom (val : Nat) : ERes ApplicationRequest :=
  match val with
  | 0 => .ok .NoApply
  | 1 => .ok .Apply
  | 2 => .ok .ApplyOnly
  | x => .err (.ProtocolError ("Unknown application request " ++ toString x))

theorem ApplicationRequest.tryFrom_toU8 (a : ApplicationRequest) :
    ApplicationRequest.tryFrom a.toU8 = .ok a := by
  cases a <;> rfl

/-- color.rs `Waveform`. -/
inductive Waveform where
  | Saw
  | Sine
  | HalfSign
  | Triangle
  | Pulse
  deriving DecidableEq, Repr

def Waveform.toU8 : Waveform → Nat
  | .Saw => 0
  | .Sine => 1
  | .HalfSign => 2
  | .Triangle => 3
  | .Pulse => 4

/-- color.rs `TryFrom<u8> for Waveform`. -/
def Waveform.tryFrom (val : Nat) : ERes Waveform :=
  match val with
  | 0 => .ok .Saw
  | 1 => .ok .Sine
  | 2 => .ok .HalfSign
  | 3 => .ok .Triangle
  | 4 => .ok .Pulse
  | x => .err (.ProtocolError ("Unknown waveform value " ++ toString x))

/-- color.rs `HSBK`: four `u16` fields. -/
structure HSBK where
  hue : Nat
  saturation : Nat
  brightness : Nat
  kelvin : Nat
  deriving DecidableEq, Repr

def HSBK.wf (c : HSBK) : Prop :=
  c.hue < 65536 ∧ c.saturation < 65536 ∧ c.brightness < 65536 ∧ c.kelvin < 65536

instance (c : HSBK) : Decidable c.wf := by
  unfold HSBK.wf; infer_instance

/-- color.rs `LittleEndianWriter<HSBK>`: hue, saturation, brightness, kelvin
in that order, each a little-endian `u16`. -/
def HSBK.pack (c : HSBK) : Bytes :=
  u16LE c.hue ++ u16LE c.saturation ++ u16LE c.brightness ++ u16LE c.kelvin

/-- color.rs `LittleEndianReader<HSBK>`. -/
def readHSBK (v : Bytes) : Option (HSBK × Bytes) :=
  match readU16 v with
  | none => none
  | some (hue, v) =>
    match readU16 v with
    | none => none
    | some (sat, v) =>
      match readU16 v with
      | none => none
      | some (bri, v) =>
        match readU16 v with
        | none => none
        | some (kel, v) => some (⟨hue, sat, bri, kel⟩, v)

theorem readHSBK_pack (c : HSBK) (r : Bytes) (h : c.wf) :
    readHSBK (c.pack ++ r) = some (c, r) := by
  obtain ⟨h1, h2, h3, h4⟩ := h
  unfold HSBK.pack readHSBK
  simp only [List.append_assoc, readU16_u16LE _ _ h1, readU16_u16LE _ _ h2,
    readU16_u16LE _ _ h3, readU16_u16LE _ _ h4]

/-! ## Header layers (protocol.rs)

Bit operations of the source are written with `/`, `%` and `*` on `Nat`:
for any `d`, `(d & 0xC000) >> 14 = d / 16384 % 4`, `(d & 0x2000) > 0` is
`d / 8192 % 2 = 1`, `(d & 0xFFF) = d % 4096`, `(b & 0xFC) >> 2 = b / 4 % 64`,
and so on. -/

/-- protocol.rs `Frame` (first 8 bytes of every packet). -/
structure Frame where
  size : Nat
  origin : Nat
  tagged : Bool
  addressable : Bool
  protocol : Nat
  source : Nat
  deriving DecidableEq, Repr

/-- The `u16` typing bounds plus nothing else (construction invariants are a
separate predicate, `Frame.validateOk`). -/
def Frame.wf (f : Frame) : Prop :=
  f.size < 65536 ∧ f.origin < 256 ∧ f.protocol < 65536 ∧ f.source < 4294967296

instance (f : Frame) : Decidable f.wf := by
  unfold Frame.wf; infer_instance

/-- protocol.rs `Frame::validate` — the `assert!` conditions; when they fail
the Rust code panics. -/
def Frame.validateOk (f : Frame) : Prop :=
  f.origin < 4 ∧ f.addressable = true ∧ f.protocol = 1024

instance (f : Frame) : Decidable f.validateOk := by
  unfold Frame.validateOk; infer_instance

/-- protocol.rs `Frame::pack`: size, then the bitfield
`origin(2 high bits) | tagged | addressable | protocol(12 low bits)`, then
source. -/
def Frame.pack (f : Frame) : Bytes :=
  u16LE f.size
    ++ u16LE ((f.origin % 4) * 16384 + (if f.tagged then 8192 else 0)
        + (if f.addressable then 4096 else 0) + f.protocol % 4096)
    ++ u32LE f.source

/-- protocol.rs `Frame::unpack`: rejects `protocol != 1024` with a
`ProtocolError`; a short buffer surfaces the reader's `io::Error`. -/
def Frame.unpack (v : Bytes) : ERes Frame :=
  match readU16 v with
  | none => .err .IoError
  | some (size, v) =>
    match readU16 v with
    | none => .err .IoError
    | some (d, v) =>
      let origin := d / 16384 % 4
      let tagged := d / 8192 % 2 = 1
      let addressable := d / 4096 % 2 = 1
      let protocol := d % 4096
      if protocol ≠ 1024 then
        .err (.ProtocolError ("Unpacked frame had protocol version " ++ toString protocol))
      else
        match readU32 v with
        | none => .err .IoError
        | some (source, _) =>
          .ok ⟨size, origin, decide tagged, decide addressable, protocol, source⟩

/-- protocol.rs `FrameAddress` (next 16 bytes). -/
structure FrameAddress where
  target : Nat
  reserved : Bytes
  reserved2 : Nat
  ack_required : Bool
  res_required : Bool
  sequence : Nat
  deriving DecidableEq, Repr

/-- Typing bounds of the `[u8; 6]` / `u8` / `u64` fields (`reserved2 < 64`
reflects that the source shifts it into the upper 6 bits of one byte). -/
def FrameAddress.wf (a : FrameAddress) : Prop :=
  a.target < 18446744073709551616 ∧ a.reserved.length = 6
    ∧ (∀ c ∈ a.reserved, c < 256) ∧ a.reserved2 < 64 ∧ a.sequence < 256

instance (a : FrameAddress) : Decidable a.wf := by
  unfold FrameAddress.wf; infer_instance

/-- protocol.rs `FrameAddress::pack`: target, the 6 reserved bytes, then
`(reserved2 << 2) | ack | res`, then sequence. -/
def FrameAddress.pack (a : FrameAddress) : Bytes :=
  u64LE a.target ++ a.reserved.take 6
    ++ u8LE (a.reserved2 % 64 * 4 + (if a.ack_required then 2 else 0)
        + (if a.res_required then 1 else 0))
    ++ u8LE a.sequence

/-- protocol.rs `FrameAddress::unpack` (its `validate` has no checks). -/
def FrameAddress.unpack (v : Bytes) : ERes FrameAddress :=
  match readU64 v with
  | none => .err .IoError
  | some (target, v) =>
    match readBytes 6 v with
    | none => .err .IoError
    | some (reserved, v) =>
      match readU8 v with
      | none => .err .IoError
      | some (b, v) =>
        match readU8 v with
        | none => .err .IoError
        | some (sequence, _) =>
          .ok ⟨target, reserved, b / 4 % 64, decide (b / 2 % 2 = 1),
            decide (b % 2 = 1), sequence⟩

/-- protocol.rs `ProtocolHeader` (next 12 bytes). -/
structure ProtocolHeader where
  reserved : Nat
  typ : Nat
  reserved2 : Nat
  deriving DecidableEq, Repr

def ProtocolHeader.wf (p : ProtocolHeader) : Prop :=
  p.reserved < 18446744073709551616 ∧ p.typ < 65536 ∧ p.reserved2 < 65536

instance (p : ProtocolHeader) : Decidable p.wf := by
  unfold ProtocolHeader.wf; infer_instance

/-- protocol.rs `ProtocolHeader::pack`. -/
def ProtocolHeader.pack (p : ProtocolHeader) : Bytes :=
  u64LE p.reserved ++ u16LE p.typ ++ u16LE p.reserved2

/-- protocol.rs `ProtocolHeader::unpack` (its `validate` has no checks). -/
def ProtocolHeader.unpack (v : Bytes) : ERes ProtocolHeader :=
  match readU64 v with
  | none => .err .IoError
  | some (reserved, v) =>
    match readU16 v with
    | none => .err .IoError
    | some (typ, v) =>
      match readU16 v with
      | none => .err .IoError
      | some (reserved2, _) => .ok ⟨reserved, typ, reserved2⟩

/-! Header round-trip lemmas.  `unpack` only looks at a prefix of the buffer,
so each lemma allows arbitrary trailing bytes. -/

theorem frame_unpack_of_pack (f : Frame) (r : Bytes) (hwf : f.wf)
    (hv : f.validateOk) : Frame.unpack (f.pack ++ r) = .ok f := by
  obtain ⟨size, origin, tagged, addressable, protocol, source⟩ := f
  obtain ⟨hs, ho, hp, hsr⟩ := hwf
  obtain ⟨ho4, ha, hp1024⟩ := hv
  simp only at hs ho hp hsr ho4 ha hp1024
  subst ha
  unfold Frame.pack Frame.unpack
  simp only
  cases tagged
  all_goals {
    norm_num
    have hd : (origin % 4) * 16384 + 8192 + 4096 + protocol % 4096 < 65536
        ∧ (origin % 4) * 16384 + 4096 + protocol % 4096 < 65536 := by omega
    simp only [readU16_u16LE _ _ hs, readU16_u16LE _ _ hd.1,
      readU16_u16LE _ _ hd.2, readU32_u32LE _ _ hsr]
    have hmod : ((origin % 4) * 16384 + 8192 + 4096 + protocol % 4096) % 4096
          = protocol % 4096
        ∧ ((origin % 4) * 16384 + 4096 + protocol % 4096) % 4096
          = protocol % 4096 := by omega
    simp only [hmod.1, hmod.2, hp1024]
    norm_num
    have hc : (origin % 4 * 16384 + 8192 + 4096 + 1024) % 4096 = 1024
        ∧ (origin % 4 * 16384 + 4096 + 1024) % 4096 = 1024 := by omega
    first
      | rw [if_pos hc.1]
      | rw [if_pos hc.2]
    simp only [ERes.ok.injEq, Frame.mk.injEq]
    refine ⟨trivial, by omega, ?_, ?_, by omega, trivial⟩ <;>
      simp only [decide_eq_true_iff, decide_eq_false_iff_not] <;> omega
  }

theorem frame_address_unpack_of_pack (a : FrameAddress) (r : Bytes) (hwf : a.wf) :
    FrameAddress.unpack (a.pack ++ r) = .ok a := by
  obtain ⟨target, reserved, reserved2, ack_required, res_required, sequence⟩ := a
  obtain ⟨ht, hr6, hrb, hr2, hsq⟩ := hwf
  simp only at ht hr6 hrb hr2 hsq
  cases ack_required <;> cases res_required <;> {
    unfold FrameAddress.pack FrameAddress.unpack
    dsimp only
    norm_num
    rw [List.take_of_length_le (by omega)]
    have hbm : (reserved2 % 64 * 4) % 256 = reserved2 % 64 * 4
        ∧ (reserved2 % 64 * 4 + 1) % 256 = reserved2 % 64 * 4 + 1
        ∧ (reserved2 % 64 * 4 + 2) % 256 = reserved2 % 64 * 4 + 2
        ∧ (reserved2 % 64 * 4 + 3) % 256 = reserved2 % 64 * 4 + 3
        ∧ (reserved2 % 64 * 4 + 2 + 1) % 256 = reserved2 % 64 * 4 + 2 + 1 := by
      omega
    simp only [List.append_assoc, readU64_u64LE _ _ ht,
      readBytes_exact reserved _ 6 hr6, u8LE, hbm.1, hbm.2.1, hbm.2.2.1,
      hbm.2.2.2.1, hbm.2.2.2.2, Nat.mod_eq_of_lt hsq,
      List.cons_append, List.nil_append, readU8]
    simp only [ERes.ok.injEq, FrameAddress.mk.injEq]
    refine ⟨trivial, trivial, by omega, ?_, ?_, trivial⟩ <;>
      simp only [decide_eq_true_iff, decide_eq_false_iff_not] <;> omega
  }

theorem protocol_header_unpack_of_pack (p : ProtocolHeader) (r : Bytes)
    (hwf : p.wf) : ProtocolHeader.unpack (p.pack ++ r) = .ok p := by
  obtain ⟨reserved, typ, reserved2⟩ := p
  obtain ⟨h1, h2, h3⟩ := hwf
  simp only at h1 h2 h3
  unfold ProtocolHeader.pack ProtocolHeader.unpack
  simp only [List.append_assoc, readU64_u64LE _ _ h1, readU16_u16LE _ _ h2,
    readU16_u16LE _ _ h3]

/-! ## Messages (msg.rs)

The tagged union of all LIFX message types known to the library.  Field
names follow the source; `skew` stands for the source's two-byte skew ratio
field (an `i16`, carried as its 16-bit pattern), `signal` / `cycles` are
`f32` fields carried as their 32-bit patterns. -/

inductive Message where
  | GetService
  | StateService (port : Nat) (service : Service)
  | GetHostInfo
  | StateHostInfo (signal tx rx reserved : Nat)
  | GetHostFirmware
  | StateHostFirmware (build reserved version : Nat)
  | GetWifiInfo
  | StateWifiInfo (signal tx rx reserved : Nat)
  | GetWifiFirmware
  | StateWifiFirmware (build reserved version : Nat)
  | GetPower
  | SetPower (level : PowerLevel)
  | StatePower (level : PowerLevel)
  | GetLabel
  | SetLabel (label : LifxString)
  | StateLabel (label : LifxString)
  | GetVersion
  | StateVersion (vendor product version : Nat)
  | GetInfo
  | StateInfo (time uptime downtime : Nat)
  | Acknowledgement (seq : Nat)
  | GetLocation
  | SetLocation (location : LifxIdent) (label : LifxString) (updated_at : Nat)
  | StateLocation (location : LifxIdent) (label : LifxString) (updated_at : Nat)
  | GetGroup
  | SetGroup (group : LifxIdent) (label : LifxString) (updated_at : Nat)
  | StateGroup (group : LifxIdent) (label : LifxString) (updated_at : Nat)
  | EchoRequest (payload : EchoPayload)
  | EchoResponse (payload : EchoPayload)
  | LightGet
  | LightSetColor (reserved : Nat) (color : HSBK) (duration : Nat)
  | SetWaveform (reserved : Nat) (transient : Bool) (color : HSBK)
      (period cycles skew : Nat) (waveform : Waveform)
  | LightState (color : HSBK) (reserved : Nat) (power : PowerLevel)
      (label : LifxString) (reserved2 : Nat)
  | LightGetPower
  | LightSetPower (level duration : Nat)
  | LightStatePower (level : Nat)
  | SetWaveformOptional (reserved : Nat) (transient : Bool) (color : HSBK)
      (period cycles skew : Nat) (waveform : Waveform)
      (set_hue set_saturation set_brightness set_kelvin : Bool)
  | LightGetInfrared
  | LightStateInfrared (brightness : Nat)
  | LightSetInfrared (brightness : Nat)
  | SetColorZones (start_index end_index : Nat) (color : HSBK)
      (duration : Nat) (apply : ApplicationRequest)
  | GetColorZones (start_index end_index : Nat)
  | StateZone (count index : Nat) (color : HSBK)
  | StateMultiZone (count index : Nat)
      (color0 color1 color2 color3 color4 color5 color6 color7 : HSBK)
  deriving DecidableEq, Repr

/-- msg.rs `Message::get_num`: the numeric message type of each variant. -/
def Message.get_num : Message → Nat
  | .GetService => 2
  | .StateService .. => 3
  | .GetHostInfo => 12
  | .StateHostInfo .. => 13
  | .GetHostFirmware => 14
  | .StateHostFirmware .. => 15
  | .GetWifiInfo => 16
  | .StateWifiInfo .. => 17
  | .GetWifiFirmware => 18
  | .StateWifiFirmware .. => 19
  | .GetPower => 20
  | .SetPower .. => 21
  | .StatePower .. => 22
  | .GetLabel => 23
  | .SetLabel .. => 24
  | .StateLabel .. => 25
  | .GetVersion => 32
  | .StateVersion .. => 33
  | .GetInfo => 34
  | .StateInfo .. => 35
  | .Acknowledgement .. => 45
  | .GetLocation => 48
  | .SetLocation .. => 49
  | .StateLocation .. => 50
  | .GetGroup => 51
  | .SetGroup .. => 52
  | .StateGroup .. => 53
  | .EchoRequest .. => 58
  | .EchoResponse .. => 59
  | .LightGet => 101
  | .LightSetColor .. => 102
  | .SetWaveform .. => 103
  | .LightState .. => 107
  | .LightGetPower => 116
  | .LightSetPower .. => 117
  | .LightStatePower .. => 118
  | .SetWaveformOptional .. => 119
  | .LightGetInfrared => 120
  | .LightStateInfrared .. => 121
  | .LightSetInfrared .. => 122
  | .SetColorZones .. => 501
  | .GetColorZones .. => 502
  | .StateZone .. => 503
  | .StateMultiZone .. => 506

/-- The payload-serialization `match` inside msg.rs `RawMessage::build`: the
bytes pushed into the payload vector for each message variant, with each
`write_val` call in source order.  Note the `StateService` arm writes `port`
before `service`, and the `LightSetPower` arm coerces any non-zero level to
65535. -/
def Message.buildPayload : Message → Bytes
  | .GetService
  | .GetHostInfo
  | .GetHostFirmware
  | .GetWifiFirmware
  | .GetWifiInfo
  | .GetPower
  | .GetLabel
  | .GetVersion
  | .GetInfo
  | .Acknowledgement _
  | .GetLocation
  | .GetGroup
  | .LightGet
  | .LightGetPower
  | .LightGetInfrared => []
  | .SetColorZones start_index end_index color duration apply =>
    u8LE start_index ++ u8LE end_index ++ color.pack ++ u32LE duration
      ++ u8LE apply.toU8
  | .SetWaveform reserved transient color period cycles skew waveform =>
    u8LE reserved ++ boolLE transient ++ color.pack ++ u32LE period
      ++ u32LE cycles ++ u16LE skew ++ u8LE waveform.toU8
  | .SetWaveformOptional reserved transient color period cycles skew waveform
      set_hue set_saturation set_brightness set_kelvin =>
    u8LE reserved ++ boolLE transient ++ color.pack ++ u32LE period
      ++ u32LE cycles ++ u16LE skew ++ u8LE waveform.toU8
      ++ boolLE set_hue ++ boolLE set_saturation ++ boolLE set_brightness
      ++ boolLE set_kelvin
  | .GetColorZones start_index end_index => u8LE start_index ++ u8LE end_index
  | .StateZone count index color => u8LE count ++ u8LE index ++ color.pack
  | .StateMultiZone count index c0 c1 c2 c3 c4 c5 c6 c7 =>
    u8LE count ++ u8LE index ++ c0.pack ++ c1.pack ++ c2.pack ++ c3.pack
      ++ c4.pack ++ c5.pack ++ c6.pack ++ c7.pack
  | .LightStateInfrared brightness => u16LE brightness
  | .LightSetInfrared brightness => u16LE brightness
  | .SetLocation location label updated_at =>
    location.pack ++ label.pack ++ u64LE updated_at
  | .SetGroup group label updated_at =>
    group.pack ++ label.pack ++ u64LE updated_at
  | .StateService port service => u32LE port ++ u8LE service.toU8
  | .StateHostInfo signal tx rx reserved =>
    u32LE signal ++ u32LE tx ++ u32LE rx ++ u16LE reserved
  | .StateHostFirmware build reserved version =>
    u64LE build ++ u64LE reserved ++ u32LE version
  | .StateWifiInfo signal tx rx reserved =>
    u32LE signal ++ u32LE tx ++ u32LE rx ++ u16LE reserved
  | .StateWifiFirmware build reserved version =>
    u64LE build ++ u64LE reserved ++ u32LE version
  | .SetPower level => u16LE level.toU16
  | .StatePower level => u16LE level.toU16
  | .SetLabel label => label.pack
  | .StateLabel label => label.pack
  | .StateVersion vendor product version =>
    u32LE vendor ++ u32LE product ++ u32LE version
  | .StateInfo time uptime downtime =>
    u64LE time ++ u64LE uptime ++ u64LE downtime
  | .StateLocation location label updated_at =>
    location.pack ++ label.pack ++ u64LE updated_at
  | .StateGroup group label updated_at =>
    group.pack ++ label.pack ++ u64LE updated_at
  | .EchoRequest payload => payload.pack
  | .EchoResponse payload => payload.pack
  | .LightSetColor reserved color duration =>
    u8LE reserved ++ color.pack ++ u32LE duration
  | .LightState color reserved power label reserved2 =>
    color.pack ++ u16LE reserved ++ u16LE power.toU16 ++ label.pack
      ++ u64LE reserved2
  | .LightSetPower level duration =>
    u16LE (if 0 < level then 65535 else 0) ++ u32LE duration
  | .LightStatePower level => u16LE level

/-- msg.rs `BuildOptions`. -/
structure BuildOptions where
  target : Option Nat
  ack_required : Bool
  res_required : Bool
  sequence : Nat
  source : Nat
  deriving DecidableEq, Repr

/-- msg.rs `impl Default for BuildOptions`. -/
def BuildOptions.defaults : BuildOptions :=
  { target := none, ack_required := false, res_required := false,
    sequence := 0, source := 0 }

def BuildOptions.wf (o : BuildOptions) : Prop :=
  (∀ t ∈ o.target, t < 18446744073709551616) ∧ o.sequence < 256
    ∧ o.source < 4294967296

instance (o : BuildOptions) : Decidable o.wf := by
  unfold BuildOptions.wf; infer_instance

/-- msg.rs `RawMessage`: the three headers plus payload bytes. -/
structure RawMessage where
  frame : Frame
  frame_addr : FrameAddress
  protocol_header : ProtocolHeader
  payload : Bytes
  deriving DecidableEq, Repr

/-- msg.rs `RawMessage::packed_size`: 8 + 16 + 12 + payload length. -/
def RawMessage.packed_size (m : RawMessage) : Nat := 36 + m.payload.length

/-- msg.rs `RawMessage::build`.  In the source this returns `Result`, but
every write goes to a `Vec` and cannot fail, so the embedding is total.
`frame.size` is assigned `packed_size() as u16` after serialization. -/
def RawMessage.build (options : BuildOptions) (typ : Message) : RawMessage :=
  let payload := typ.buildPayload
  { frame :=
      { size := (36 + payload.length) % 65536
        origin := 0
        tagged := options.target.isNone
        addressable := true
        protocol := 1024
        source := options.source }
    frame_addr :=
      { target := options.target.getD 0
        reserved := List.replicate 6 0
        reserved2 := 0
        ack_required := options.ack_required
        res_required := options.res_required
        sequence := options.sequence }
    protocol_header :=
      { reserved := 0, typ := typ.get_num, reserved2 := 0 }
    payload := payload }

/-- msg.rs `RawMessage::pack`: header packings followed by the payload. -/
def RawMessage.pack (m : RawMessage) : Bytes :=
  m.frame.pack ++ m.frame_addr.pack ++ m.protocol_header.pack ++ m.payload

/-- msg.rs `RawMessage::unpack`.  After the `Frame` parse the source calls
`frame.validate()` (an `assert!`, hence a panic when `addressable` is unset),
and it takes the payload as the slice `v[36 .. frame.size]`, which panics
when `frame.size < 36` or `frame.size > v.len()`. -/
def RawMessage.unpack (v : Bytes) : PRes RawMessage :=
  match Frame.unpack v with
  | .err e => .err e
  | .ok frame =>
    if ¬ (frame.origin < 4 ∧ frame.addressable = true ∧ frame.protocol = 1024) then
      .panicked
    else
      match FrameAddress.unpack (v.drop 8) with
      | .err e => .err e
      | .ok addr =>
        match ProtocolHeader.unpack (v.drop 24) with
        | .err e => .err e
        | .ok proto =>
          if frame.size < 36 ∨ v.length < frame.size then .panicked
          else
            .ok { frame := frame, frame_addr := addr, protocol_header := proto,
                  payload := (v.drop 36).take (frame.size - 36) }

/-- Lift an `Option` read result into `ERes` (a failed read is an
`Error::Io` via the `?` operator and `From<io::Error>`). -/
def liftRead : Option Message → ERes Message
  | none => .err .IoError
  | some m => .ok m

/-- msg.rs `Message::from_raw`: dispatch on `protocol_header.typ`, parsing
the payload.  Only the listed type codes are handled; everything else is
`UnknownMessageType`.  The `unpack!` macro first performs all reads (read
failures surface as `Io` errors) and then the per-field `try_into`
conversions (failures surface as `ProtocolError`). -/
def Message.from_raw (msg : RawMessage) : ERes Message :=
  match msg.protocol_header.typ with
  | 2 => .ok .GetService
  | 3 =>
    match readU8 msg.payload with
    | none => .err .IoError
    | some (service, v) =>
      match readU32 v with
      | none => .err .IoError
      | some (port, _) =>
        match Service.tryFrom service with
        | .err e => .err e
        | .ok service => .ok (.StateService port service)
  | 12 => .ok .GetHostInfo
  | 13 =>
    liftRead (do
      let (signal, v) ← readU32 msg.payload
      let (tx, v) ← readU32 v
      let (rx, v) ← readU32 v
      let (reserved, _) ← readU16 v
      pure (.StateHostInfo signal tx rx reserved))
  | 14 => .ok .GetHostFirmware
  | 15 =>
    liftRead (do
      let (build, v) ← readU64 msg.payload
      let (reserved, v) ← readU64 v
      let (version, _) ← readU32 v
      pure (.StateHostFirmware build reserved version))
  | 16 => .ok .GetWifiInfo
  | 17 =>
    liftRead (do
      let (signal, v) ← readU32 msg.payload
      let (tx, v) ← readU32 v
      let (rx, v) ← readU32 v
      let (reserved, _) ← readU16 v
      pure (.StateWifiInfo signal tx rx reserved))
  | 18 => .ok .GetWifiFirmware
  | 19 =>
    liftRead (do
      let (build, v) ← readU64 msg.payload
      let (reserved, v) ← readU64 v
      let (version, _) ← readU32 v
      pure (.StateWifiFirmware build reserved version))
  | 20 => .ok .GetPower
  | 22 =>
    match readU16 msg.payload with
    | none => .err .IoError
    | some (level, _) =>
      match PowerLevel.tryFrom level with
      | .err e => .err e
      | .ok level => .ok (.StatePower level)
  | 23 => .ok .GetLabel
  | 25 =>
    liftRead (do
      let (label, _) ← readLifxString msg.payload
      pure (.StateLabel label))
  | 32 => .ok .GetVersion
  | 33 =>
    liftRead (do
      let (vendor, v) ← readU32 msg.payload
      let (product, v) ← readU32 v
      let (version, _) ← readU32 v
      pure (.StateVersion vendor product version))
  | 35 =>
    liftRead (do
      let (time, v) ← readU64 msg.payload
      let (uptime, v) ← readU64 v
      let (downtime, _) ← readU64 v
      pure (.StateInfo time uptime downtime))
  | 45 => .ok (.Acknowledgement msg.frame_addr.sequence)
  | 48 => .ok .GetLocation
  | 50 =>
    liftRead (do
      let (location, v) ← readLifxIdent msg.payload
      let (label, v) ← readLifxString v
      let (updated_at, _) ← readU64 v
      pure (.StateLocation location label updated_at))
  | 51 => .ok .GetGroup
  | 53 =>
    liftRead (do
      let (group, v) ← readLifxIdent msg.payload
      let (label, v) ← readLifxString v
      let (updated_at, _) ← readU64 v
      pure (.StateGroup group label updated_at))
  | 58 =>
    liftRead (do
      let (payload, _) ← readEchoPayload msg.payload
      pure (.EchoRequest payload))
  | 59 =>
    liftRead (do
      let (payload, _) ← readEchoPayload msg.payload
      pure (.EchoResponse payload))
  | 101 => .ok .LightGet
  | 102 =>
    liftRead (do
      let (reserved, v) ← readU8 msg.payload
      let (color, v) ← readHSBK v
      let (duration, _) ← readU32 v
      pure (.LightSetColor reserved color duration))
  | 107 =>
    match readHSBK msg.payload with
    | none => .err .IoError
    | some (color, v) =>
      match readU16 v with
      | none => .err .IoError
      | some (reserved, v) =>
        match readU16 v with
        | none => .err .IoError
        | some (power, v) =>
          match readLifxString v with
          | none => .err .IoError
          | some (label, v) =>
            match readU64 v with
            | none => .err .IoError
            | some (reserved2, _) =>
              match PowerLevel.tryFrom power with
              | .err e => .err e
              | .ok power => .ok (.LightState color reserved power label reserved2)
  | 116 => .ok .LightGetPower
  | 117 =>
    liftRead (do
      let (level, v) ← readU16 msg.payload
      let (duration, _) ← readU32 v
      pure (.LightSetPower level duration))
  | 118 =>
    liftRead (do
      let (level, _) ← readU16 msg.payload
      pure (.LightStatePower level))
  | 121 =>
    liftRead (do
      let (brightness, _) ← readU16 msg.payload
      pure (.LightStateInfrared brightness))
  | 501 =>
    match readU8 msg.payload with
    | none => .err .IoError
    | some (start_index, v) =>
      match readU8 v with
      | none => .err .IoError
      | some (end_index, v) =>
        match readHSBK v with
        | none => .err .IoError
        | some (color, v) =>
          match readU32 v with
          | none => .err .IoError
          | some (duration, v) =>
            match readU8 v with
            | none => .err .IoError
            | some (apply, _) =>
              match ApplicationRequest.tryFrom apply with
              | .err e => .err e
              | .ok apply =>
                .ok (.SetColorZones start_index end_index color duration apply)
  | 502 =>
    liftRead (do
      let (start_index, v) ← readU8 msg.payload
      let (end_index, _) ← readU8 v
      pure (.GetColorZones start_index end_index))
  | 503 =>
    liftRead (do
      let (count, v) ← readU8 msg.payload
      let (index, v) ← readU8 v
      let (color, _) ← readHSBK v
      pure (.StateZone count index color))
  | 506 =>
    liftRead (do
      let (count, v) ← readU8 msg.payload
      let (index, v) ← readU8 v
      let (c0, v) ← readHSBK v
      let (c1, v) ← readHSBK v
      let (c2, v) ← readHSBK v
      let (c3, v) ← readHSBK v
      let (c4, v) ← readHSBK v
      let (c5, v) ← readHSBK v
      let (c6, v) ← readHSBK v
      let (c7, _) ← readHSBK v
      pure (.StateMultiZone count index c0 c1 c2 c3 c4 c5 c6 c7))
  | t => .err (.UnknownMessageType t)

/-! ## HSBK constructors (color.rs `HSBK::white` / `HSBK::color`)

The source computes with `f32` and converts with `as u16`.  The embedding
replaces `f32` arithmetic by exact rational arithmetic; `as u16` is the
saturating truncation toward zero (`castU16`).  On the inputs used in the
theorems below every `f32` product is exactly representable, so the rational
value coincides with the `f32` value. -/

/-- Rust `expr as u16` on a non-NaN float: truncate toward zero and saturate
into `[0, 65535]`. -/
def castU16 (q : ℚ) : Nat :=
  if q < 0 then 0 else min (Int.toNat ⌊q⌋) 65535

/-- color.rs `HSBK::white`: hue 0, saturation 0, brightness scaled by
`u16::MAX`, kelvin passed through. -/
def HSBK.white (kelvin : Nat) (brightness : ℚ) : HSBK :=
  { hue := 0
    saturation := 0
    kelvin := kelvin
    brightness := castU16 (brightness * 65535) }

/-- color.rs `HSBK::color`: hue (a `u16` degree count) scaled by
`u16::MAX / 360`, saturation and brightness scaled by `u16::MAX`, kelvin 0. -/
def HSBK.color (hue : Nat) (saturation brightness : ℚ) : HSBK :=
  { hue := castU16 ((hue / 360 : ℚ) * 65535)
    saturation := castU16 (saturation * 65535)
    brightness := castU16 (brightness * 65535)
    kelvin := 0 }

/-! ## Product capability table (product.rs `get_product_info`) -/

structure ProductInfo where
  name : String
  color : Bool
  infrared : Bool
  multizone : Bool
  chain : Bool
  deriving DecidableEq, Repr

/-- product.rs `get_product_info`: static `(vendor, product)` lookup. -/
def get_product_info (vendor product : Nat) : Option ProductInfo :=
  match vendor, product with
  | 1,  1 => some ⟨"Original 1000", true, false, false, false⟩
  | 1,  3 => some ⟨"Color 650", true, false, false, false⟩
  | 1, 10 => some ⟨"White 800 (Low Voltage)", false, false, false, false⟩
  | 1, 11 => some ⟨"White 800 (High Voltage)", false, false, false, false⟩
  | 1, 18 => some ⟨"White 900 BR30 (Low Voltage)", false, false, false, false⟩
  | 1, 20 => some ⟨"Color 1000 BR30", true, false, false, false⟩
  | 1, 22 => some ⟨"Color 1000", true, false, false, false⟩
  | 1, 27 => some ⟨"LIFX A19", true, false, false, false⟩
  | 1, 28 => some ⟨"LIFX BR30", true, false, false, false⟩
  | 1, 29 => some ⟨"LIFX+ A19", true, true, false, false⟩
  | 1, 30 => some ⟨"LIFX+ BR30", true, true, false, false⟩
  | 1, 31 => some ⟨"LIFX Z", true, false, true, false⟩
  | 1, 32 => some ⟨"LIFX Z 2", true, false, true, false⟩
  | 1, 36 => some ⟨"LIFX Downlight", true, false, false, false⟩
  | 1, 37 => some ⟨"LIFX Downlight", true, false, false, false⟩
  | 1, 38 => some ⟨"LIFX Beam", true, false, true, false⟩
  | 1, 43 => some ⟨"LIFX A19", true, false, false, false⟩
  | 1, 44 => some ⟨"LIFX BR30", true, false, false, false⟩
  | 1, 45 => some ⟨"LIFX+ A19", true, true, false, false⟩
  | 1, 46 => some ⟨"LIFX+ BR30", true, true, false, false⟩
  | 1, 49 => some ⟨"LIFX Mini", true, false, false, false⟩
  | 1, 50 => some ⟨"LIFX Mini Day and Dusk", false, false, false, false⟩
  | 1, 51 => some ⟨"LIFX Mini White", false, false, false, false⟩
  | 1, 52 => some ⟨"LIFX GU10", true, false, false, false⟩
  | 1, 55 => some ⟨"LIFX Tile", true, false, false, true⟩
  | 1, 59 => some ⟨"LIFX Mini Color", true, false, false, false⟩
  | 1, 60 => some ⟨"LIFX Mini Day and Dusk", false, false, false, false⟩
  | 1, 61 => some ⟨"LIFX Mini White", false, false, false, false⟩
  | _, _ => none

/-! ## Device manager model (udp/refreshable_data.rs, udp/bulb.rs,
udp/manager.rs)

Wall-clock aspects (`Instant`, `Duration`, `last_updated`, `last_seen`) and
socket handles are not modelled; the claims proved below are about the pure
state transitions of the bulb registry.  `max_age` is carried in seconds so
the `RefreshableData` constructors keep their source arguments. -/

/-- udp/refreshable_data.rs `RefreshableData<T>` (minus the timestamp). -/
structure RefreshableData (α : Type) where
  data : Option α
  max_age_secs : Nat
  refresh_msg : Message
  deriving DecidableEq, Repr

/-- `RefreshableData::empty(max_age, refresh_msg)`. -/
def RefreshableData.empty (max_age_secs : Nat) (refresh_msg : Message) :
    RefreshableData α :=
  { data := none, max_age_secs := max_age_secs, refresh_msg := refresh_msg }

/-- `RefreshableData::update`: replace the value (the timestamp bump is not
modelled). -/
def RefreshableData.update (d : RefreshableData α) (v : α) :
    RefreshableData α :=
  { d with data := some v }

/-- udp/bulb.rs `Color` (the bulb color mode). -/
inductive Color where
  | Unknown
  | Single (d : RefreshableData HSBK)
  | Multi (d : RefreshableData (List (Option HSBK)))
  deriving DecidableEq, Repr

/-- udp/bulb.rs `Bulb` (minus `last_seen` and the socket handle;
`addr_port` models the port of the `SocketAddr`). -/
structure Bulb where
  source : Nat
  target : Nat
  addr_port : Nat
  model : RefreshableData (Nat × Nat)
  location : RefreshableData (List Nat)
  group : RefreshableData (List Nat)
  name : RefreshableData (List Nat)
  host_firmware : RefreshableData Nat
  wifi_firmware : RefreshableData Nat
  power_level : RefreshableData PowerLevel
  color : Color
  deriving DecidableEq, Repr

/-- udp/bulb.rs `Bulb::new` (TTL one hour = 3600 s except power). -/
def Bulb.new (source target addr_port : Nat) : Bulb :=
  { source := source
    target := target
    addr_port := addr_port
    model := RefreshableData.empty 3600 .GetVersion
    location := RefreshableData.empty 3600 .GetLocation
    group := RefreshableData.empty 3600 .GetGroup
    name := RefreshableData.empty 3600 .GetLabel
    host_firmware := RefreshableData.empty 3600 .GetHostFirmware
    wifi_firmware := RefreshableData.empty 3600 .GetWifiFirmware
    power_level := RefreshableData.empty 15 .GetPower
    color := .Unknown }

/-- udp/bulb.rs `Bulb::update`: refresh `addr` (`last_seen` not modelled). -/
def Bulb.updateSeen (b : Bulb) (addr_port : Nat) : Bulb :=
  { b with addr_port := addr_port }

/-- udp/manager.rs `Manager::handle_message`.  Decodes the raw message and
updates the bulb.  `StateZone` / `StateMultiZone` can panic: on first
creation the vector closure asserts the index bound, and the subsequent
indexed store panics when the index is outside the existing vector. -/
def handleMessage (raw : RawMessage) (bulb : Bulb) : PRes Bulb :=
  match Message.from_raw raw with
  | .err e => .err e
  | .ok msg =>
    match msg with
    | .StateService _ _ =>
      -- mismatched service/port is only logged; no state change either way
      .ok bulb
    | .StateLabel label => .ok { bulb with name := bulb.name.update label.chars }
    | .StateLocation _ label _ =>
      .ok { bulb with location := bulb.location.update label.chars }
    | .StateVersion vendor product _ =>
      let b := { bulb with model := bulb.model.update (vendor, product) }
      match get_product_info vendor product with
      | some info =>
        if info.multizone then
          .ok { b with color := .Multi (RefreshableData.empty 15
            (.GetColorZones 0 255)) }
        else
          .ok { b with color := .Single (RefreshableData.empty 15 .LightGet) }
      | none => .ok b
    | .StatePower level =>
      .ok { bulb with power_level := bulb.power_level.update level }
    | .StateHostFirmware _ _ version =>
      .ok { bulb with host_firmware := bulb.host_firmware.update version }
    | .StateWifiFirmware _ _ version =>
      .ok { bulb with wifi_firmware := bulb.wifi_firmware.update version }
    | .LightState color _ power label _ =>
      let b :=
        match bulb.color with
        | .Single d =>
          { bulb with
            color := .Single (d.update color)
            power_level := bulb.power_level.update power }
        | _ => bulb
      .ok { b with name := b.name.update label.chars }
    | .StateZone count index color =>
      match bulb.color with
      | .Multi d =>
        match d.data with
        | none =>
          -- `get_or_insert_with` creates a `count`-long vector of `None`
          -- (asserting `index <= count`), then `v[index]` is stored to;
          -- `index = count` hits the bounds panic, `index > count` the assert
          if index < count then
            .ok { bulb with color := .Multi { d with
              data := some ((List.replicate count none).set index (some color)) } }
          else .panicked
        | some v =>
          -- the existing vector keeps its length; only entry `index` changes
          if index < v.length then
            .ok { bulb with color := .Multi { d with
              data := some (v.set index (some color)) } }
          else .panicked
      | _ => .ok bulb
    | .StateMultiZone count index c0 c1 c2 c3 c4 c5 c6 c7 =>
      match bulb.color with
      | .Multi d =>
        match d.data with
        | none =>
          -- creation asserts `index + 7 <= count`; the eight stores then
          -- need `index + 7 < count`
          if index + 7 < count then
            .ok { bulb with color := .Multi { d with
              data := some (((((((((List.replicate count none).set index (some c0)).set
                (index + 1) (some c1)).set (index + 2) (some c2)).set
                (index + 3) (some c3)).set (index + 4) (some c4)).set
                (index + 5) (some c5)).set (index + 6) (some c6)).set
                (index + 7) (some c7)) } }
          else .panicked
        | some v =>
          if index + 7 < v.length then
            .ok { bulb with color := .Multi { d with
              data := some ((((((((v.set index (some c0)).set
                (index + 1) (some c1)).set (index + 2) (some c2)).set
                (index + 3) (some c3)).set (index + 4) (some c4)).set
                (index + 5) (some c5)).set (index + 6) (some c6)).set
                (index + 7) (some c7)) } }
          else .panicked
      | _ => .ok bulb
    | .StateGroup _ label _ =>
      .ok { bulb with group := bulb.group.update label.chars }
    | _ =>
      -- all other decoded variants are logged and ignored
      .ok bulb

/-! ### The receive loop (udp/manager.rs `Manager::worker`) -/

/-- The bulb registry: the mutex-protected `HashMap<u64, Bulb>`, modelled as
an association list with at most one entry per key. -/
abbrev Registry := List (Nat × Bulb)

def regLookup (reg : Registry) (k : Nat) : Option Bulb :=
  (reg.find? (fun p => p.1 = k)).map Prod.snd

/-- Store under key `k`, replacing an existing entry (`HashMap` entry
semantics). -/
def regStore (reg : Registry) (k : Nat) (b : Bulb) : Registry :=
  match reg with
  | [] => [(k, b)]
  | p :: rest => if p.1 = k then (k, b) :: rest else p :: regStore rest k b

/-- One received datagram: its bytes and the sender's port. -/
structure Datagram where
  bytes : Bytes
  addr_port : Nat
  deriving DecidableEq, Repr

/-- One iteration of the receive loop for one datagram.  Returns the
registry afterwards and whether the worker thread is still alive (a panic
in `unpack` or `handle_message` kills it).  Decode errors and zero-byte
datagrams are logged and dropped; packets whose `frame_addr.target` is 0
are dropped before any registry access. -/
def workerStep (source : Nat) (reg : Registry) (d : Datagram) :
    Registry × Bool :=
  -- the receive buffer is 1024 bytes; longer datagrams arrive truncated
  let data := d.bytes.take 1024
  if data.length = 0 then (reg, true)
  else
    match RawMessage.unpack data with
    | .err _ => (reg, true)
    | .panicked => (reg, false)
    | .ok raw =>
      if raw.frame_addr.target = 0 then (reg, true)
      else
        let bulb :=
          match regLookup reg raw.frame_addr.target with
          | some b => b.updateSeen d.addr_port
          | none => Bulb.new source raw.frame_addr.target d.addr_port
        match handleMessage raw bulb with
        | .ok b2 => (regStore reg raw.frame_addr.target b2, true)
        | .err _ => (regStore reg raw.frame_addr.target bulb, true)
        | .panicked =>
          -- the thread dies inside the lock; the entry made by
          -- `entry().or_insert_with` is already present
          (regStore reg raw.frame_addr.target bulb, false)

/-- All registry states reached while the worker processes a datagram
sequence (including the initial and final states; processing stops when the
worker thread panics). -/
def workerTrace (source : Nat) : Registry → List Datagram → List Registry
  | reg, [] => [reg]
  | reg, d :: ds =>
    match workerStep source reg d with
    | (reg2, true) => reg :: workerTrace source reg2 ds
    | (reg2, false) => [reg, reg2]

/-! ## Helper lemmas for the full-message round-trip -/

theorem frame_pack_length (f : Frame) : f.pack.length = 8 := by
  simp [Frame.pack, u16LE, u32LE]

theorem frame_address_pack_length (a : FrameAddress)
    (h : a.reserved.length = 6) : a.pack.length = 16 := by
  simp [FrameAddress.pack, u64LE, u8LE, List.length_take, h]

theorem protocol_header_pack_length (p : ProtocolHeader) : p.pack.length = 12 := by
  simp [ProtocolHeader.pack, u64LE, u16LE]

theorem hsbk_pack_length (c : HSBK) : c.pack.length = 8 := by
  simp [HSBK.pack, u16LE]

/-- Tail-less variants of the reader round-trips. -/
theorem readU8_u8LE_nil (n : Nat) (h : n < 256) : readU8 (u8LE n) = some (n, []) := by
  simpa using readU8_u8LE n [] h

theorem readU16_u16LE_nil (n : Nat) (h : n < 65536) :
    readU16 (u16LE n) = some (n, []) := by
  simpa using readU16_u16LE n [] h

theorem readU32_u32LE_nil (n : Nat) (h : n < 4294967296) :
    readU32 (u32LE n) = some (n, []) := by
  simpa using readU32_u32LE n [] h

theorem readU64_u64LE_nil (n : Nat) (h : n < 18446744073709551616) :
    readU64 (u64LE n) = some (n, []) := by
  simpa using readU64_u64LE n [] h

theorem readHSBK_pack_nil (c : HSBK) (h : c.wf) :
    readHSBK c.pack = some (c, []) := by
  simpa using readHSBK_pack c [] h

theorem readLifxString_pack_nil (s : LifxString) (h : s.wf) :
    readLifxString s.pack = some (s, []) := by
  simpa using readLifxString_pack s [] h

theorem readLifxIdent_pack_nil (i : LifxIdent) (h : i.bytes.length = 16) :
    readLifxIdent i.pack = some (i, []) := by
  simpa using readLifxIdent_pack i [] h

theorem readEchoPayload_pack_nil (p : EchoPayload) (h : p.bytes.length = 64) :
    readEchoPayload p.pack = some (p, []) := by
  simpa using readEchoPayload_pack p [] h

/-- Every payload the library builds is at most 66 bytes (`StateMultiZone`). -/
theorem Message.buildPayload_length_le (m : Message) :
    m.buildPayload.length ≤ 66 := by
  have hlab : ∀ s : LifxString, s.pack.length = 32 := LifxString.pack_length32
  cases m <;>
    simp [Message.buildPayload, u8LE, u16LE, u32LE, u64LE, boolLE,
      HSBK.pack, LifxString.pack, LifxIdent.pack, EchoPayload.pack,
      List.length_take] <;>
    omega

/-- `get_num` is always a valid `u16`. -/
theorem Message.get_num_lt (m : Message) : m.get_num < 65536 := by
  cases m <;> simp [Message.get_num]

/-- Unpacking a packed well-formed `RawMessage` restores it exactly.  The
hypotheses are the typing bounds of the header fields, the `Frame::validate`
conditions, and the `frame.size` bookkeeping that `build` establishes. -/
theorem raw_unpack_of_pack (r : RawMessage)
    (hf : r.frame.wf) (hv : r.frame.validateOk)
    (ha : r.frame_addr.wf) (hp : r.protocol_header.wf)
    (hsz : r.frame.size = 36 + r.payload.length) :
    RawMessage.unpack r.pack = .ok r := by
  obtain ⟨frame, fa, ph, payload⟩ := r
  simp only at hf hv ha hp hsz
  have hfl : frame.pack.length = 8 := frame_pack_length frame
  have hal : fa.pack.length = 16 := frame_address_pack_length fa ha.2.1
  have hpl : ph.pack.length = 12 := protocol_header_pack_length ph
  unfold RawMessage.pack RawMessage.unpack
  dsimp only
  rw [List.append_assoc, List.append_assoc]
  have e8 : (frame.pack ++ (fa.pack ++ (ph.pack ++ payload))).drop 8
      = fa.pack ++ (ph.pack ++ payload) := List.drop_left' hfl
  have e24 : (frame.pack ++ (fa.pack ++ (ph.pack ++ payload))).drop 24
      = ph.pack ++ payload := by
    rw [show (24 : Nat) = 8 + 16 from rfl, ← List.drop_drop, e8,
      List.drop_left' hal]
  have e36 : (frame.pack ++ (fa.pack ++ (ph.pack ++ payload))).drop 36
      = payload := by
    rw [show (36 : Nat) = 24 + 12 from rfl, ← List.drop_drop, e24,
      List.drop_left' hpl]
  have elen : (frame.pack ++ (fa.pack ++ (ph.pack ++ payload))).length
      = 36 + payload.length := by
    simp [List.length_append, hfl, hal, hpl]
    omega
  obtain ⟨hv1, hv2, hv3⟩ := hv
  have hcond : ¬¬(frame.origin < 4 ∧ frame.addressable = true
      ∧ frame.protocol = 1024) := not_not_intro ⟨hv1, hv2, hv3⟩
  have hcond2 : ¬(36 + payload.length < 36
      ∨ (frame.pack ++ (fa.pack ++ (ph.pack ++ payload))).length
        < 36 + payload.length) := by
    rw [elen]; omega
  simp only [frame_unpack_of_pack frame _ hf ⟨hv1, hv2, hv3⟩, if_neg hcond, e8,
    frame_address_unpack_of_pack fa _ ha, e24, protocol_header_unpack_of_pack ph _ hp,
    hsz, if_neg hcond2, e36, Nat.add_sub_cancel_left, List.take_length]

/-- Typing bounds of a `Message`'s fields (what the Rust types `u8`/`u16`/
`u32`/`u64`/`[u8; N]` guarantee), plus canonical labels: at most 32 non-NUL
ASCII bytes.  The ASCII restriction is load-bearing: outside it the source
label writer itself panics (string.rs indexes chars by a byte-length bound
and unwraps), so no round-trip statement may include such labels. -/
def Message.wf : Message → Prop
  | .StateService port _ => port < 4294967296
  | .StateHostInfo signal tx rx reserved =>
    signal < 4294967296 ∧ tx < 4294967296 ∧ rx < 4294967296 ∧ reserved < 65536
  | .StateWifiInfo signal tx rx reserved =>
    signal < 4294967296 ∧ tx < 4294967296 ∧ rx < 4294967296 ∧ reserved < 65536
  | .StateHostFirmware build reserved version =>
    build < 18446744073709551616 ∧ reserved < 18446744073709551616
      ∧ version < 4294967296
  | .StateWifiFirmware build reserved version =>
    build < 18446744073709551616 ∧ reserved < 18446744073709551616
      ∧ version < 4294967296
  | .SetLabel label => label.wf
  | .StateLabel label => label.wf
  | .StateVersion vendor product version =>
    vendor < 4294967296 ∧ product < 4294967296 ∧ version < 4294967296
  | .StateInfo time uptime downtime =>
    time < 18446744073709551616 ∧ uptime < 18446744073709551616
      ∧ downtime < 18446744073709551616
  | .Acknowledgement seq => seq < 256
  | .SetLocation location label updated_at =>
    location.wf ∧ label.wf ∧ updated_at < 18446744073709551616
  | .StateLocation location label updated_at =>
    location.wf ∧ label.wf ∧ updated_at < 18446744073709551616
  | .SetGroup group label updated_at =>
    group.wf ∧ label.wf ∧ updated_at < 18446744073709551616
  | .StateGroup group label updated_at =>
    group.wf ∧ label.wf ∧ updated_at < 18446744073709551616
  | .EchoRequest payload => payload.wf
  | .EchoResponse payload => payload.wf
  | .LightSetColor reserved color duration =>
    reserved < 256 ∧ color.wf ∧ duration < 4294967296
  | .SetWaveform reserved _ color period cycles skew _ =>
    reserved < 256 ∧ color.wf ∧ period < 4294967296 ∧ cycles < 4294967296
      ∧ skew < 65536
  | .SetWaveformOptional reserved _ color period cycles skew _ _ _ _ _ =>
    reserved < 256 ∧ color.wf ∧ period < 4294967296 ∧ cycles < 4294967296
      ∧ skew < 65536
  | .LightState color reserved _ label reserved2 =>
    color.wf ∧ reserved < 65536 ∧ label.wf ∧ reserved2 < 18446744073709551616
  | .LightSetPower level duration => level < 65536 ∧ duration < 4294967296
  | .LightStatePower level => level < 65536
  | .LightStateInfrared brightness => brightness < 65536
  | .LightSetInfrared brightness => brightness < 65536
  | .SetColorZones start_index end_index color duration _ =>
    start_index < 256 ∧ end_index < 256 ∧ color.wf ∧ duration < 4294967296
  | .GetColorZones start_index end_index =>
    start_index < 256 ∧ end_index < 256
  | .StateZone count index color => count < 256 ∧ index < 256 ∧ color.wf
  | .StateMultiZone count index c0 c1 c2 c3 c4 c5 c6 c7 =>
    count < 256 ∧ index < 256 ∧ c0.wf ∧ c1.wf ∧ c2.wf ∧ c3.wf ∧ c4.wf
      ∧ c5.wf ∧ c6.wf ∧ c7.wf
  | _ => True

/-- The amended round-trip condition for C1: the message's type code must
have a `from_raw` arm (which excludes `SetPower`, `SetLabel`, `GetInfo`,
`SetLocation`, `SetGroup`, `SetWaveform`, `SetWaveformOptional`,
`LightGetInfrared` and `LightSetInfrared`), `StateService` is excluded
because `build` writes `port` before `service` while `from_raw` reads
`service` first, `LightSetPower` only round-trips at the two levels the
wire coercion preserves, and `Acknowledgement` only when its `seq` agrees
with the `sequence` build option (the decoder takes it from the frame
address). -/
def Message.roundtrippable (opts : BuildOptions) : Message → Prop
  | .StateService _ _ => False
  | .SetPower _ => False
  | .SetLabel _ => False
  | .GetInfo => False
  | .SetLocation _ _ _ => False
  | .SetGroup _ _ _ => False
  | .SetWaveform _ _ _ _ _ _ _ => False
  | .SetWaveformOptional _ _ _ _ _ _ _ _ _ _ _ => False
  | .LightGetInfrared => False
  | .LightSetInfrared _ => False
  | .Acknowledgement seq => seq = opts.sequence
  | .LightSetPower level _ => level = 0 ∨ level = 65535
  | _ => True

/-- `RawMessage::unpack` inverts `pack` on every message `build` produces. -/
theorem raw_unpack_of_pack_build (opts : BuildOptions) (m : Message)
    (ho : opts.wf) :
    RawMessage.unpack ((RawMessage.build opts m).pack)
      = .ok (RawMessage.build opts m) := by
  obtain ⟨hot, hosq, hosrc⟩ := ho
  have hlen := m.buildPayload_length_le
  have hmod : (36 + m.buildPayload.length) % 65536
      = 36 + m.buildPayload.length := by omega
  apply raw_unpack_of_pack
  · exact ⟨by simp [RawMessage.build]; omega, by norm_num [RawMessage.build],
      by norm_num [RawMessage.build], by simpa [RawMessage.build] using hosrc⟩
  · exact ⟨by norm_num [RawMessage.build], by norm_num [RawMessage.build],
      by norm_num [RawMessage.build]⟩
  · refine ⟨?_, by simp [RawMessage.build], by simp [RawMessage.build],
      by norm_num [RawMessage.build], by simpa [RawMessage.build] using hosq⟩
    cases ht : opts.target with
    | none => simp [RawMessage.build, ht]
    | some t => simpa [RawMessage.build, ht] using hot t ht
  · exact ⟨by norm_num [RawMessage.build], by simpa [RawMessage.build] using
      m.get_num_lt, by norm_num [RawMessage.build]⟩
  · simp [RawMessage.build, RawMessage.packed_size]
    omega

theorem PowerLevel.toU16_lt (p : PowerLevel) : p.toU16 < 65536 := by
  cases p <;> norm_num [PowerLevel.toU16]

theorem ApplicationRequest.toU8_lt (a : ApplicationRequest) : a.toU8 < 256 := by
  cases a <;> norm_num [ApplicationRequest.toU8]

/-- `from_raw` inverts `build` on every well-formed round-trippable message. -/
theorem Message.from_raw_build (opts : BuildOptions) (m : Message)
    (hm : m.wf) (hr : m.roundtrippable opts) :
    Message.from_raw (RawMessage.build opts m) = .ok m := by
  cases m with
  | GetService => rfl
  | GetHostInfo => rfl
  | GetHostFirmware => rfl
  | GetWifiInfo => rfl
  | GetWifiFirmware => rfl
  | GetPower => rfl
  | GetLabel => rfl
  | GetVersion => rfl
  | GetLocation => rfl
  | GetGroup => rfl
  | LightGet => rfl
  | LightGetPower => rfl
  | StateService port service => exact hr.elim
  | SetPower level => exact hr.elim
  | SetLabel label => exact hr.elim
  | GetInfo => exact hr.elim
  | SetLocation location label updated_at => exact hr.elim
  | SetGroup group label updated_at => exact hr.elim
  | SetWaveform reserved transient color period cycles skew waveform =>
    exact hr.elim
  | SetWaveformOptional reserved transient color period cycles skew waveform
      sh ss sb sk => exact hr.elim
  | LightGetInfrared => exact hr.elim
  | LightSetInfrared brightness => exact hr.elim
  | Acknowledgement seq =>
    have hseq : seq = opts.sequence := hr
    subst hseq
    rfl
  | StateHostInfo signal tx rx reserved =>
    obtain ⟨h1, h2, h3, h4⟩ := hm
    simp only [RawMessage.build, Message.get_num, Message.buildPayload,
      Message.from_raw]
    simp only [List.append_assoc, readU32_u32LE _ _ h1, readU32_u32LE _ _ h2,
      readU32_u32LE _ _ h3, readU16_u16LE_nil _ h4, Option.bind_eq_bind,
      Option.some_bind, liftRead]
  | StateWifiInfo signal tx rx reserved =>
    obtain ⟨h1, h2, h3, h4⟩ := hm
    simp only [RawMessage.build, Message.get_num, Message.buildPayload,
      Message.from_raw]
    simp only [List.append_assoc, readU32_u32LE _ _ h1, readU32_u32LE _ _ h2,
      readU32_u32LE _ _ h3, readU16_u16LE_nil _ h4, Option.bind_eq_bind,
      Option.some_bind, liftRead]
  | StateHostFirmware build reserved version =>
    obtain ⟨h1, h2, h3⟩ := hm
    simp only [RawMessage.build, Message.get_num, Message.buildPayload,
      Message.from_raw]
    simp only [List.append_assoc, readU64_u64LE _ _ h1, readU64_u64LE _ _ h2,
      readU32_u32LE_nil _ h3, Option.bind_eq_bind, Option.some_bind, liftRead]
  | StateWifiFirmware build reserved version =>
    obtain ⟨h1, h2, h3⟩ := hm
    simp only [RawMessage.build, Message.get_num, Message.buildPayload,
      Message.from_raw]
    simp only [List.append_assoc, readU64_u64LE _ _ h1, readU64_u64LE _ _ h2,
      readU32_u32LE_nil _ h3, Option.bind_eq_bind, Option.some_bind, liftRead]
  | StatePower level =>
    simp only [RawMessage.build, Message.get_num, Message.buildPayload,
      Message.from_raw]
    simp only [readU16_u16LE_nil _ level.toU16_lt, PowerLevel.tryFrom_toU16]
  | StateLabel label =>
    simp only [RawMessage.build, Message.get_num, Message.buildPayload,
      Message.from_raw]
    simp only [readLifxString_pack_nil _ hm, Option.bind_eq_bind,
      Option.some_bind, liftRead]
  | StateVersion vendor product version =>
    obtain ⟨h1, h2, h3⟩ := hm
    simp only [RawMessage.build, Message.get_num, Message.buildPayload,
      Message.from_raw]
    simp only [List.append_assoc, readU32_u32LE _ _ h1, readU32_u32LE _ _ h2,
      readU32_u32LE_nil _ h3, Option.bind_eq_bind, Option.some_bind, liftRead]
  | StateInfo time uptime downtime =>
    obtain ⟨h1, h2, h3⟩ := hm
    simp only [RawMessage.build, Message.get_num, Message.buildPayload,
      Message.from_raw]
    simp only [List.append_assoc, readU64_u64LE _ _ h1, readU64_u64LE _ _ h2,
      readU64_u64LE_nil _ h3, Option.bind_eq_bind, Option.some_bind, liftRead]
  | StateLocation location label updated_at =>
    obtain ⟨h1, h2, h3⟩ := hm
    simp only [RawMessage.build, Message.get_num, Message.buildPayload,
      Message.from_raw]
    simp only [List.append_assoc, readLifxIdent_pack _ _ h1.1,
      readLifxString_pack _ _ h2, readU64_u64LE_nil _ h3, Option.bind_eq_bind,
      Option.some_bind, liftRead]
  | StateGroup group label updated_at =>
    obtain ⟨h1, h2, h3⟩ := hm
    simp only [RawMessage.build, Message.get_num, Message.buildPayload,
      Message.from_raw]
    simp only [List.append_assoc, readLifxIdent_pack _ _ h1.1,
      readLifxString_pack _ _ h2, readU64_u64LE_nil _ h3, Option.bind_eq_bind,
      Option.some_bind, liftRead]
  | EchoRequest payload =>
    simp only [RawMessage.build, Message.get_num, Message.buildPayload,
      Message.from_raw]
    simp only [readEchoPayload_pack_nil _ hm.1, Option.bind_eq_bind,
      Option.some_bind, liftRead]
  | EchoResponse payload =>
    simp only [RawMessage.build, Message.get_num, Message.buildPayload,
      Message.from_raw]
    simp only [readEchoPayload_pack_nil _ hm.1, Option.bind_eq_bind,
      Option.some_bind, liftRead]
  | LightSetColor reserved color duration =>
    obtain ⟨h1, h2, h3⟩ := hm
    simp only [RawMessage.build, Message.get_num, Message.buildPayload,
      Message.from_raw]
    simp only [List.append_assoc, readU8_u8LE _ _ h1, readHSBK_pack _ _ h2,
      readU32_u32LE_nil _ h3, Option.bind_eq_bind, Option.some_bind, liftRead]
  | LightState color reserved power label reserved2 =>
    obtain ⟨h1, h2, h3, h4⟩ := hm
    simp only [RawMessage.build, Message.get_num, Message.buildPayload,
      Message.from_raw]
    simp only [List.append_assoc, readHSBK_pack _ _ h1, readU16_u16LE _ _ h2,
      readU16_u16LE _ _ power.toU16_lt, readLifxString_pack _ _ h3,
      readU64_u64LE_nil _ h4, PowerLevel.tryFrom_toU16]
  | LightSetPower level duration =>
    obtain ⟨h1, h2⟩ := hm
    have hlv : level = 0 ∨ level = 65535 := hr
    rcases hlv with rfl | rfl <;>
      simp only [RawMessage.build, Message.get_num, Message.buildPayload,
        Message.from_raw] <;>
      norm_num <;>
      simp only [List.append_assoc, readU16_u16LE 0 _ (by norm_num),
        readU16_u16LE 65535 _ (by norm_num), readU32_u32LE_nil _ h2,
        Option.bind_eq_bind, Option.some_bind, liftRead]
  | LightStatePower level =>
    simp only [RawMessage.build, Message.get_num, Message.buildPayload,
      Message.from_raw]
    simp only [readU16_u16LE_nil _ hm, Option.bind_eq_bind, Option.some_bind,
      liftRead]
  | LightStateInfrared brightness =>
    simp only [RawMessage.build, Message.get_num, Message.buildPayload,
      Message.from_raw]
    simp only [readU16_u16LE_nil _ hm, Option.bind_eq_bind, Option.some_bind,
      liftRead]
  | SetColorZones start_index end_index color duration apply =>
    obtain ⟨h1, h2, h3, h4⟩ := hm
    simp only [RawMessage.build, Message.get_num, Message.buildPayload,
      Message.from_raw]
    simp only [List.append_assoc, readU8_u8LE _ _ h1, readU8_u8LE _ _ h2,
      readHSBK_pack _ _ h3, readU32_u32LE _ _ h4,
      readU8_u8LE_nil _ apply.toU8_lt, ApplicationRequest.tryFrom_toU8]
  | GetColorZones start_index end_index =>
    obtain ⟨h1, h2⟩ := hm
    simp only [RawMessage.build, Message.get_num, Message.buildPayload,
      Message.from_raw]
    simp only [List.append_assoc, readU8_u8LE _ _ h1, readU8_u8LE_nil _ h2,
      Option.bind_eq_bind, Option.some_bind, liftRead]
  | StateZone count index color =>
    obtain ⟨h1, h2, h3⟩ := hm
    simp only [RawMessage.build, Message.get_num, Message.buildPayload,
      Message.from_raw]
    simp only [List.append_assoc, readU8_u8LE _ _ h1, readU8_u8LE _ _ h2,
      readHSBK_pack_nil _ h3, Option.bind_eq_bind, Option.some_bind, liftRead]
  | StateMultiZone count index c0 c1 c2 c3 c4 c5 c6 c7 =>
    obtain ⟨h1, h2, hc0, hc1, hc2, hc3, hc4, hc5, hc6, hc7⟩ := hm
    simp only [RawMessage.build, Message.get_num, Message.buildPayload,
      Message.from_raw]
    simp only [List.append_assoc, readU8_u8LE _ _ h1, readU8_u8LE _ _ h2,
      readHSBK_pack _ _ hc0, readHSBK_pack _ _ hc1, readHSBK_pack _ _ hc2,
      readHSBK_pack _ _ hc3, readHSBK_pack _ _ hc4, readHSBK_pack _ _ hc5,
      readHSBK_pack _ _ hc6, readHSBK_pack_nil _ hc7, Option.bind_eq_bind,
      Option.some_bind, liftRead]

/-! ## Concrete fixtures used by the claim theorems -/

/-- A received `RawMessage` with the given type code and payload (headers as
a device would send them: unicast to target 1, protocol 1024). -/
def rawWith (typ : Nat) (payload : Bytes) : RawMessage :=
  { frame :=
      { size := (36 + payload.length) % 65536, origin := 0, tagged := false,
        addressable := true, protocol := 1024, source := 0 }
    frame_addr :=
      { target := 1, reserved := List.replicate 6 0, reserved2 := 0,
        ack_required := false, res_required := false, sequence := 0 }
    protocol_header := { reserved := 0, typ := typ, reserved2 := 0 }
    payload := payload }

/-- A 36-byte packet whose frame declares `size = 40`: the four payload bytes
it promises are missing (a truncated datagram). -/
def c3TruncatedPacket : Bytes :=
  [40, 0, 0, 20, 0, 0, 0, 0] ++ List.replicate 16 0 ++ List.replicate 12 0

/-! ## Claim theorems -/

/-- C2: the payload of a type-3 `StateService` message is `u8 service` then
`u32 port` on the wire, and `Message::from_raw` parses it in that order —
but `RawMessage::build` writes `port` first and `service` last, contradicting
both the wire layout and its own decoder: the built payload for
`StateService{port: 56700, service: UDP}` is `[124, 221, 0, 0, 1]` instead of
`[1, 124, 221, 0, 0]`, and feeding the built payload back through `from_raw`
yields a `ProtocolError` (byte 124 is not a valid service). -/
theorem c2_stateservice_wire_order :
    (RawMessage.build BuildOptions.defaults (.StateService 56700 .UDP)).payload
      = u32LE 56700 ++ u8LE Service.UDP.toU8
    ∧ (RawMessage.build BuildOptions.defaults (.StateService 56700 .UDP)).payload
      ≠ u8LE Service.UDP.toU8 ++ u32LE 56700
    ∧ Message.from_raw (rawWith 3 (u8LE Service.UDP.toU8 ++ u32LE 56700))
      = .ok (.StateService 56700 .UDP)
    ∧ (Message.from_raw (rawWith 3 (RawMessage.build BuildOptions.defaults
        (.StateService 56700 .UDP)).payload)).isProtocolError = true := by
  refine ⟨by decide, by decide, by decide, by decide⟩

/-- C3: for a packet whose declared `frame.size` exceeds the bytes actually
available, `RawMessage::unpack` does not return a `ProtocolError` — the
slice `v[36 .. frame.size]` is out of range and the function panics
(killing the receive thread), and for a packet truncated inside the headers
the reader returns an `Io` error, also not a `ProtocolError`. -/
theorem c3_truncated_payload_panics :
    c3TruncatedPacket.length = 36
    ∧ Frame.unpack c3TruncatedPacket = .ok ⟨40, 0, false, true, 1024, 0⟩
    ∧ RawMessage.unpack c3TruncatedPacket = .panicked
    ∧ RawMessage.unpack (c3TruncatedPacket.take 20) = .err .IoError := by
  refine ⟨by decide, by decide, by decide, by decide⟩

/-- C5 counterexample: with `opts.target = Some(0)`, `build` produces a
message whose `frame.tagged` is `false` although `frame_addr.target` is 0,
refuting `tagged == (target == 0)` as stated. -/
theorem c5_counterexample :
    (RawMessage.build ⟨some 0, false, false, 0, 0⟩ .GetService).frame.tagged
      = false
    ∧ (RawMessage.build ⟨some 0, false, false, 0, 0⟩
        .GetService).frame_addr.target = 0 := by
  refine ⟨by decide, by decide⟩

/-- C5 amended: `build` sets `tagged` iff `opts.target` is `None` and copies
`opts.target` (default 0) into `frame_addr.target`; hence
`tagged == (target == 0)` holds for every `opts` except `target = Some(0)`,
where `tagged` is false yet `target` is 0. -/
theorem c5_tagged_iff_broadcast_amended (opts : BuildOptions) (m : Message) :
    (RawMessage.build opts m).frame.tagged = opts.target.isNone
    ∧ (RawMessage.build opts m).frame_addr.target = opts.target.getD 0
    ∧ (opts.target ≠ some 0 →
        ((RawMessage.build opts m).frame.tagged = true
          ↔ (RawMessage.build opts m).frame_addr.target = 0)) := by
  refine ⟨rfl, rfl, ?_⟩
  intro h
  cases ht : opts.target with
  | none => simp [RawMessage.build, ht]
  | some t =>
    have h0 : t ≠ 0 := fun h0 => h (ht.trans (by rw [h0]))
    simp [RawMessage.build, ht, h0]

/-- C5 amended witness at `opts.target = Some(7)`. -/
theorem c5_tagged_iff_broadcast_amended_witness :
    (RawMessage.build ⟨some 7, false, false, 0, 0⟩ .GetService).frame.tagged
      = true
    ↔ (RawMessage.build ⟨some 7, false, false, 0, 0⟩
        .GetService).frame_addr.target = 0 :=
  (c5_tagged_iff_broadcast_amended ⟨some 7, false, false, 0, 0⟩
    .GetService).2.2 (by decide)

/-- C7: `Frame::unpack` inverts `Frame::pack` for every frame satisfying the
construction invariants (`addressable`, `protocol = 1024`, `origin < 4`)
and the `u16`/`u32` typing bounds of its fields. -/
theorem c7_frame_pack_unpack (f : Frame) (hwf : f.wf) (hv : f.validateOk) :
    Frame.unpack f.pack = .ok f := by
  simpa using frame_unpack_of_pack f [] hwf hv

/-- C7 witness: the spec's own fixture frame. -/
theorem c7_frame_pack_unpack_witness :
    Frame.unpack (Frame.pack ⟨4386, 0, true, true, 1024, 1234567⟩)
      = .ok ⟨4386, 0, true, true, 1024, 1234567⟩ :=
  c7_frame_pack_unpack ⟨4386, 0, true, true, 1024, 1234567⟩ (by decide)
    (by decide)

/-- C9: building `LightSetPower{level, duration}` coerces the level on the
wire — any positive level is serialized as 65535 and level 0 as 0 (the raw
level value is never transmitted) — while the duration bytes follow
unchanged. -/
theorem c9_lightsetpower_wire_coercion (opts : BuildOptions)
    (level duration : Nat) (hd : duration < 4294967296) :
    (0 < level →
      (RawMessage.build opts (.LightSetPower level duration)).payload
        = u16LE 65535 ++ u32LE duration)
    ∧ (level = 0 →
      (RawMessage.build opts (.LightSetPower level duration)).payload
        = u16LE 0 ++ u32LE duration)
    ∧ readU32 ((RawMessage.build opts
        (.LightSetPower level duration)).payload.drop 2)
        = some (duration, []) := by
  refine ⟨?_, ?_, ?_⟩
  · intro h
    simp [RawMessage.build, Message.buildPayload, if_pos h]
  · intro h
    subst h
    simp [RawMessage.build, Message.buildPayload]
  · have : (RawMessage.build opts (.LightSetPower level duration)).payload.drop 2
        = u32LE duration := by
      simp [RawMessage.build, Message.buildPayload, u16LE]
    rw [this]
    exact readU32_u32LE_nil _ hd

/-- C9 witness at `level = 7`, `duration = 1000`. -/
theorem c9_lightsetpower_wire_coercion_witness :
    (RawMessage.build BuildOptions.defaults (.LightSetPower 7 1000)).payload
      = u16LE 65535 ++ u32LE 1000 :=
  (c9_lightsetpower_wire_coercion BuildOptions.defaults 7 1000 (by decide)).1
    (by decide)

/-- The type-107 `LightState` payload around a given raw power level (all
other fields zeroed), used to exercise the `u16 → PowerLevel` conversion. -/
def lightStatePayloadAt (level : Nat) : Bytes :=
  HSBK.pack ⟨0, 0, 0, 0⟩ ++ u16LE 0 ++ u16LE level ++ LifxString.pack ⟨[]⟩
    ++ u64LE 0

/-- C10 counterexample: the claim names `SetPower` among the payloads whose
decode fails with `ProtocolError` off `{0, 65535}`, but `Message::from_raw`
has no arm for type 21 at all: a `SetPower` packet with level 5 fails with
`UnknownMessageType(21)` — not a `ProtocolError` — before any `PowerLevel`
conversion can run. -/
theorem c10_counterexample :
    Message.from_raw (rawWith 21 (u16LE 5)) = .err (.UnknownMessageType 21)
    ∧ (Message.from_raw (rawWith 21 (u16LE 5))).isProtocolError = false := by
  refine ⟨by decide, by decide⟩

/-- C10 amended: the `u16 → PowerLevel` conversion is reachable in
`Message::from_raw` only through type 22 (`StatePower`) and the power field
of type 107 (`LightState`), and there decoding succeeds exactly for the
levels 0 and 65535 — any other 16-bit level yields a `ProtocolError`
(`TryFrom<u16> for PowerLevel`); a `SetPower` packet (type 21) is never
decoded: `from_raw` returns `UnknownMessageType(21)` for every level. -/
theorem c10_powerlevel_decode (level : Nat) (h : level < 65536) :
    (Message.from_raw (rawWith 22 (u16LE level)) = .ok (.StatePower .Standby)
      ↔ level = 0)
    ∧ (Message.from_raw (rawWith 22 (u16LE level)) = .ok (.StatePower .Enabled)
      ↔ level = 65535)
    ∧ (level ≠ 0 → level ≠ 65535 →
        (Message.from_raw (rawWith 22 (u16LE level))).isProtocolError = true
        ∧ (Message.from_raw (rawWith 107
            (lightStatePayloadAt level))).isProtocolError = true)
    ∧ Message.from_raw (rawWith 21 (u16LE level))
        = .err (.UnknownMessageType 21) := by
  have hread := readU16_u16LE_nil level h
  by_cases h65 : level = 65535
  · subst h65
    refine ⟨by decide, by decide, by decide, by decide⟩
  · by_cases h0 : level = 0
    · subst h0
      refine ⟨by decide, by decide, by decide, by decide⟩
    · have hdec22 : Message.from_raw (rawWith 22 (u16LE level))
          = .err (.ProtocolError ("Unknown power level " ++ toString level)) := by
        simp only [rawWith, Message.from_raw]
        simp only [hread, PowerLevel.tryFrom, if_neg h65, if_neg h0]
      have hdec107 : Message.from_raw (rawWith 107 (lightStatePayloadAt level))
          = .err (.ProtocolError ("Unknown power level " ++ toString level)) := by
        simp only [rawWith, Message.from_raw, lightStatePayloadAt]
        simp only [List.append_assoc,
          readHSBK_pack ⟨0, 0, 0, 0⟩ _ (by norm_num [HSBK.wf]),
          readU16_u16LE 0 _ (by norm_num), readU16_u16LE _ _ h,
          readLifxString_pack ⟨[]⟩ _ (by constructor <;> simp [LifxString.wf]),
          readU64_u64LE_nil 0 (by norm_num),
          PowerLevel.tryFrom, if_neg h65, if_neg h0]
      rw [hdec22, hdec107]
      refine ⟨by simp [h0], by simp [h65], fun _ _ => ⟨rfl, rfl⟩, rfl⟩

/-- C10 witness at `level = 1`: refused with `ProtocolError` at types 22 and
107, never decoded at type 21. -/
theorem c10_powerlevel_decode_witness :
    ((Message.from_raw (rawWith 22 (u16LE 1))).isProtocolError = true
      ∧ (Message.from_raw (rawWith 107
          (lightStatePayloadAt 1))).isProtocolError = true)
    ∧ Message.from_raw (rawWith 21 (u16LE 1))
        = .err (.UnknownMessageType 21) :=
  ⟨(c10_powerlevel_decode 1 (by decide)).2.2.1 (by decide) (by decide),
   (c10_powerlevel_decode 1 (by decide)).2.2.2⟩

/-- Exact truncation of a unit-interval component scaled to the 16-bit
range: the saturating `as u16` cast reduces to the floor. -/
theorem castU16_unit_scale (q : ℚ) (h0 : 0 ≤ q) (h1 : q ≤ 1) :
    castU16 (q * 65535) = Int.toNat ⌊q * 65535⌋ := by
  unfold castU16
  rw [if_neg (not_lt.2 (by positivity))]
  refine min_eq_left ?_
  have hle : q * 65535 ≤ 65535 := by nlinarith
  have h2 : ⌊q * 65535⌋ ≤ ⌊(65535 : ℚ)⌋ := Int.floor_mono hle
  have h3 : ⌊(65535 : ℚ)⌋ = 65535 := by norm_num
  omega

/-- C8 counterexample: `HSBK::white(3500, 0.5)` stores brightness 32767
(the `as u16` cast truncates), while `round(0.5 * 65535) = 32768`; the f32
product `0.5 * 65535.0 = 32767.5` is exactly representable, so the exact
rational model agrees with the source here. -/
theorem c8_counterexample :
    (HSBK.white 3500 (1 / 2)).brightness = 32767
    ∧ round ((1 / 2 : ℚ) * 65535) = 32768 := by
  constructor
  · norm_num [HSBK.white, castU16]
    rfl
  · norm_num [round_eq]

/-- C8 amended: for components in the unit interval the constructors
truncate (they do not round): `white(k, b)` yields hue 0, saturation 0,
kelvin `k` and brightness `⌊b * 65535⌋`, and `color(h, s, b)` with
`h < 360` yields kelvin 0, saturation `⌊s * 65535⌋`, brightness
`⌊b * 65535⌋` and hue `⌊(h / 360) * 65535⌋` (f32 arithmetic modelled as
exact rational arithmetic). -/
theorem c8_constructors_truncate_amended (k hue : Nat) (s b : ℚ)
    (hs0 : 0 ≤ s) (hs1 : s ≤ 1) (hb0 : 0 ≤ b) (hb1 : b ≤ 1)
    (hh : hue < 360) :
    (HSBK.white k b).hue = 0
    ∧ (HSBK.white k b).saturation = 0
    ∧ (HSBK.white k b).kelvin = k
    ∧ (HSBK.white k b).brightness = Int.toNat ⌊b * 65535⌋
    ∧ (HSBK.color hue s b).kelvin = 0
    ∧ (HSBK.color hue s b).saturation = Int.toNat ⌊s * 65535⌋
    ∧ (HSBK.color hue s b).brightness = Int.toNat ⌊b * 65535⌋
    ∧ (HSBK.color hue s b).hue = Int.toNat ⌊(hue / 360 : ℚ) * 65535⌋ := by
  have hq0 : (0 : ℚ) ≤ (hue / 360 : ℚ) := by positivity
  have hq1 : (hue / 360 : ℚ) ≤ 1 := by
    rw [div_le_one (by norm_num)]
    exact_mod_cast hh.le
  exact ⟨rfl, rfl, rfl, castU16_unit_scale b hb0 hb1, rfl,
    castU16_unit_scale s hs0 hs1, castU16_unit_scale b hb0 hb1,
    castU16_unit_scale _ hq0 hq1⟩

/-- Storing under a non-zero key preserves the absence of key 0. -/
theorem regStore_no_zero (reg : Registry) (k : Nat) (b : Bulb) (hk : k ≠ 0)
    (h : ∀ p ∈ reg, p.1 ≠ 0) : ∀ p ∈ regStore reg k b, p.1 ≠ 0 := by
  induction reg with
  | nil =>
    intro p hp
    simp [regStore] at hp
    rw [hp]
    exact hk
  | cons q rest ih =>
    intro p hp
    have hq := h q (by simp)
    have hrest : ∀ p ∈ rest, p.1 ≠ 0 := fun p hp => h p (by simp [hp])
    by_cases hqk : q.1 = k
    · simp [regStore, hqk] at hp
      rcases hp with hp | hp
      · rw [hp]; exact hk
      · exact hrest p hp
    · simp [regStore, hqk] at hp
      rcases hp with hp | hp
      · rw [hp]; exact hq
      · exact ih hrest p hp

/-- One worker iteration preserves the absence of key 0 in the registry. -/
theorem workerStep_no_zero (source : Nat) (reg : Registry) (d : Datagram)
    (h : ∀ p ∈ reg, p.1 ≠ 0) :
    ∀ p ∈ (workerStep source reg d).1, p.1 ≠ 0 := by
  unfold workerStep
  dsimp only
  split
  · exact h
  · split
    · exact h
    · exact h
    · rename_i raw _
      split
      · exact h
      · rename_i htgt
        split
        · exact regStore_no_zero reg raw.frame_addr.target _ htgt h
        · exact regStore_no_zero reg raw.frame_addr.target _ htgt h
        · exact regStore_no_zero reg raw.frame_addr.target _ htgt h

/-- Every registry state the worker reaches is free of key 0 when the
initial one is. -/
theorem workerTrace_no_zero (source : Nat) (ds : List Datagram)
    (reg : Registry) (h : ∀ p ∈ reg, p.1 ≠ 0) :
    ∀ r ∈ workerTrace source reg ds, ∀ p ∈ r, p.1 ≠ 0 := by
  induction ds generalizing reg with
  | nil =>
    intro r hr
    simp [workerTrace] at hr
    rw [hr]
    exact h
  | cons d ds ih =>
    intro r hr
    have hstep := workerStep_no_zero source reg d h
    unfold workerTrace at hr
    rcases hcase : workerStep source reg d with ⟨reg2, alive⟩
    rw [hcase] at hr hstep
    cases alive with
    | true =>
      simp at hr
      rcases hr with rfl | hr
      · exact h
      · exact ih reg2 hstep r hr
    | false =>
      simp at hr
      rcases hr with rfl | rfl
      · exact h
      · exact hstep

/-- C4: starting from the empty registry, no sequence of received datagrams
ever makes the receive loop insert a bulb under target key 0 — every
registry state in the worker's trace is free of key 0 (packets with
`frame_addr.target == 0` are dropped before any registry access). -/
theorem c4_registry_never_key_zero (source : Nat) (ds : List Datagram) :
    ∀ r ∈ workerTrace source [] ds, ∀ p ∈ r, p.1 ≠ 0 :=
  workerTrace_no_zero source ds [] (by simp)

/-- A discovery-style `StateService` reply from target 4660, as the worker
would receive it. -/
def c4Datagram : Datagram :=
  ⟨(RawMessage.build ⟨some 4660, false, false, 0, 1⟩
    (.StateService 56700 .UDP)).pack, 56700⟩

/-- C4 witness: after processing one concrete datagram the reached registry
state contains the bulb under its non-zero key. -/
theorem c4_registry_never_key_zero_witness :
    (4660, (Bulb.new 1 4660 56700)).1 ≠ 0 :=
  c4_registry_never_key_zero 1 [c4Datagram]
    (regStore [] 4660 (Bulb.new 1 4660 56700)) (by decide)
    (4660, Bulb.new 1 4660 56700) (by decide)

/-- C1 counterexample: `GetInfo` (type 34) builds, packs and unpacks fine,
but `Message::from_raw` has no arm for type 34 and fails with
`UnknownMessageType`, so the stated round-trip does not hold for every
`Message`. -/
theorem c1_counterexample :
    RawMessage.unpack ((RawMessage.build BuildOptions.defaults .GetInfo).pack)
      = .ok (RawMessage.build BuildOptions.defaults .GetInfo)
    ∧ Message.from_raw (RawMessage.build BuildOptions.defaults .GetInfo)
      = .err (.UnknownMessageType 34) := by
  refine ⟨by decide, by decide⟩

/-- C1 amended: the built-and-packed round-trip
`from_raw (unpack (pack (build opts m))) = m` holds exactly (labels being
canonical — at most 32 non-NUL ASCII bytes — replaces "modulo NUL-padding"
and keeps out the labels on which the source writer itself panics; `build`
zeroes all reserved header fields itself) for every well-formed
`BuildOptions` and every well-formed
`Message` that is round-trippable: its type code has a `from_raw` arm —
which excludes `SetPower` (21), `SetLabel` (24), `GetInfo` (34),
`SetLocation` (49), `SetGroup` (52), `SetWaveform` (103),
`SetWaveformOptional` (119), `LightGetInfrared` (120) and
`LightSetInfrared` (122) — and it is not `StateService` (whose build arm
writes the fields in the wrong order), `LightSetPower` is restricted to the
two wire-preserved levels 0 and 65535, and `Acknowledgement`'s `seq` equals
the `sequence` build option. -/
theorem c1_roundtrip_amended (opts : BuildOptions) (m : Message)
    (ho : opts.wf) (hm : m.wf) (hr : m.roundtrippable opts) :
    RawMessage.unpack ((RawMessage.build opts m).pack)
      = .ok (RawMessage.build opts m)
    ∧ Message.from_raw (RawMessage.build opts m) = .ok m :=
  ⟨raw_unpack_of_pack_build opts m ho,
   Message.from_raw_build opts m hm hr⟩

/-- C1 amended witness: a `StateZone` message with a non-trivial payload
round-trips through build, pack, unpack and from_raw. -/
theorem c1_roundtrip_amended_witness :
    RawMessage.unpack ((RawMessage.build BuildOptions.defaults
        (.StateZone 8 3 ⟨1, 2, 3, 4⟩)).pack)
      = .ok (RawMessage.build BuildOptions.defaults
        (.StateZone 8 3 ⟨1, 2, 3, 4⟩))
    ∧ Message.from_raw (RawMessage.build BuildOptions.defaults
        (.StateZone 8 3 ⟨1, 2, 3, 4⟩))
      = .ok (.StateZone 8 3 ⟨1, 2, 3, 4⟩) :=
  c1_roundtrip_amended BuildOptions.defaults (.StateZone 8 3 ⟨1, 2, 3, 4⟩)
    (by decide) (by norm_num [Message.wf, HSBK.wf]) (by trivial)

/-- A multizone bulb whose zone vector already exists with length 2. -/
def c6Bulb : Bulb :=
  { Bulb.new 7 9 56700 with
    color := .Multi
      { data := some [none, none]
        max_age_secs := 15
        refresh_msg := .GetColorZones 0 255 } }

/-- A received `StateZone{count: 3, index: 0, color}` packet. -/
def c6Raw : RawMessage := rawWith 503 (u8LE 3 ++ u8LE 0 ++ HSBK.pack ⟨1, 2, 3, 4⟩)

/-- C6 counterexample: for a bulb in `Multi` mode with `index < count`, the
claim says `handle_message` ensures the inner vector has length `count`;
but when the vector already exists, `get_or_insert_with` keeps it, so a
`StateZone{count: 3, index: 0}` on an existing 2-entry vector leaves a
vector of length 2, not 3. -/
theorem c6_counterexample :
    Message.from_raw c6Raw = .ok (.StateZone 3 0 ⟨1, 2, 3, 4⟩)
    ∧ handleMessage c6Raw c6Bulb = .ok { c6Bulb with
        color := .Multi
          { data := some [some ⟨1, 2, 3, 4⟩, none]
            max_age_secs := 15
            refresh_msg := .GetColorZones 0 255 } }
    ∧ ([some (⟨1, 2, 3, 4⟩ : HSBK), none].length = 2 ∧ (2 : Nat) ≠ 3) := by
  refine ⟨by decide, by decide, by decide, by decide⟩

/-- C6 amended: on a `StateZone{count, index, color}` for a bulb in `Multi`
mode, `handle_message` creates the inner vector — with length `count`, all
entries absent — only when it does not already exist (requiring
`index < count`); an existing vector keeps its length (requiring
`index < length`); in both cases exactly entry `index` becomes
`Some(color)` and no other part of the bulb changes; in `Unknown` or
`Single` mode nothing changes. -/
theorem c6_statezone_amended (raw : RawMessage) (bulb : Bulb)
    (count index : Nat) (color : HSBK)
    (hdec : Message.from_raw raw = .ok (.StateZone count index color)) :
    (∀ d, bulb.color = .Multi d → d.data = none → index < count →
      handleMessage raw bulb = .ok { bulb with color := .Multi { d with
        data := some ((List.replicate count none).set index (some color)) } })
    ∧ (∀ d v, bulb.color = .Multi d → d.data = some v → index < v.length →
      handleMessage raw bulb = .ok { bulb with color := .Multi { d with
        data := some (v.set index (some color)) } })
    ∧ (bulb.color = .Unknown → handleMessage raw bulb = .ok bulb)
    ∧ (∀ d, bulb.color = .Single d → handleMessage raw bulb = .ok bulb) := by
  refine ⟨?_, ?_, ?_, ?_⟩
  · intro d hc hdata hidx
    unfold handleMessage
    rw [hdec]
    simp only [hc, hdata, if_pos hidx]
  · intro d v hc hdata hidx
    unfold handleMessage
    rw [hdec]
    simp only [hc, hdata, if_pos hidx]
  · intro hc
    unfold handleMessage
    rw [hdec]
    simp only [hc]
  · intro d hc
    unfold handleMessage
    rw [hdec]
    simp only [hc]

/-- C6 amended witness: creation case on a fresh multizone bulb
(`data = none`), count 3, index 1. -/
theorem c6_statezone_amended_witness :
    handleMessage (rawWith 503 (u8LE 3 ++ u8LE 1 ++ HSBK.pack ⟨1, 2, 3, 4⟩))
      { Bulb.new 7 9 56700 with
        color := .Multi ⟨none, 15, .GetColorZones 0 255⟩ }
      = .ok { { Bulb.new 7 9 56700 with
          color := .Multi ⟨none, 15, .GetColorZones 0 255⟩ } with
          color := .Multi
            ⟨some ((List.replicate 3 none).set 1 (some ⟨1, 2, 3, 4⟩)), 15,
              .GetColorZones 0 255⟩ } :=
  (c6_statezone_amended
    (rawWith 503 (u8LE 3 ++ u8LE 1 ++ HSBK.pack ⟨1, 2, 3, 4⟩))
    { Bulb.new 7 9 56700 with
      color := .Multi ⟨none, 15, .GetColorZones 0 255⟩ }
    3 1 ⟨1, 2, 3, 4⟩ (by decide)).1
    ⟨none, 15, .GetColorZones 0 255⟩
    (by decide) (by decide) (by decide)

/-- C8 amended witness at `white(3500, 1/2)` and `color(120, 1/2, 1/2)`. -/
theorem c8_constructors_truncate_amended_witness :
    (HSBK.white 3500 (1 / 2)).brightness = Int.toNat ⌊(1 / 2 : ℚ) * 65535⌋
    ∧ (HSBK.color 120 (1 / 2) (1 / 2)).hue
      = Int.toNat ⌊(120 / 360 : ℚ) * 65535⌋ :=
  ⟨(c8_constructors_truncate_amended 3500 120 (1 / 2) (1 / 2) (by norm_num)
      (by norm_num) (by norm_num) (by norm_num) (by norm_num)).2.2.2.1,
   (c8_constructors_truncate_amended 3500 120 (1 / 2) (1 / 2) (by norm_num)
      (by norm_num) (by norm_num) (by norm_num)
      (by norm_num)).2.2.2.2.2.2.2⟩

end Lifx
